import Mathlib

/-!
# LTM persistence-profile resources of the BIG-IP Terraform provider

A shallow embedding of

* `bigip/resource_bigip_ltm_persistence_profile_dstaddr.go`
* `bigip/resource_bigip_ltm_persistence_profile_srcaddr.go`

Each Go function of the two files is one Lean definition of the same name.
The two libraries the files call are not part of the repository and are
modelled by their interface only:

* the `go-bigip` client (`*bigip.BigIP`) is a record of eight methods over an
  arbitrary device state `σ`; every call is appended to a trace;
* the Terraform `*schema.ResourceData` is an ID plus a key/value store; its
  `Set` accepts a value only if it has the type the schema declares for the
  key.

A Go `error` is `Option GoError` (`none` is `nil`), a Go pointer to a profile
is `Option _` (`none` is `nil`), and a run-time panic is the `error` side of
`Except Panic`.
-/

namespace Bigip

/-! ## Values, errors, panics -/

/-- A non-nil Go `error` value. -/
structure GoError where
  msg : String
deriving DecidableEq, Repr

/-- The dynamic values (`interface{}`) that occur in the two files. -/
inductive Value where
  | str (s : String)
  | int (n : Int)
  | bool (b : Bool)
deriving DecidableEq, Repr

/-- The run-time panics the two files can raise. -/
inductive Panic where
  /-- a type assertion `x.(T)` on a value whose dynamic type is not `T` -/
  | typeAssertion
  /-- a field access through a nil pointer -/
  | nilDereference
deriving DecidableEq, Repr

/-! ## `strconv.Itoa` and the reading of a decimal string -/

/-- The character of the decimal digit `d`. -/
def digitChar (d : Nat) : Char := Char.ofNat (48 + d)

/-- Decimal digits of `n`, most significant first; `fuel` bounds the number of
digits produced. -/
def decimalDigits : Nat → Nat → List Char
  | 0, _ => []
  | fuel + 1, n =>
    if n < 10 then [digitChar n]
    else decimalDigits fuel (n / 10) ++ [digitChar (n % 10)]

/-- Decimal rendering of a natural number. -/
def natToDecimal (n : Nat) : List Char := decimalDigits (n + 1) n

/-- Model of `strconv.Itoa`: the decimal rendering of an integer, with a
leading `-` for a negative one. -/
def Itoa (i : Int) : String :=
  match i with
  | Int.ofNat n => String.mk (natToDecimal n)
  | Int.negSucc n => String.mk ('-' :: natToDecimal (n + 1))

/-- One step of reading a decimal numeral from the left. -/
def decimalStep (acc : Nat) (c : Char) : Nat := 10 * acc + (c.toNat - 48)

/-- Reads a non-empty run of decimal digits. -/
def parseDigits (cs : List Char) : Option Nat :=
  if cs ≠ [] ∧ cs.all Char.isDigit = true then some (cs.foldl decimalStep 0) else none

/-- Reads a decimal string: an optional `-` followed by one or more digits. -/
def parseDecimal (s : String) : Option Int :=
  match s.data with
  | '-' :: cs => (parseDigits cs).map fun n => -(n : Int)
  | cs => (parseDigits cs).map fun n => (n : Int)

/-! ## The `go-bigip` profile structs (the fields the two files use) -/

/-- Fields of `bigip.PersistenceProfile` used by the two files. -/
structure PersistenceProfile where
  AppService : String
  DefaultsFrom : String
  MatchAcrossPools : String
  MatchAcrossServices : String
  MatchAcrossVirtuals : String
  Mirror : String
  OverrideConnectionLimit : String
  Timeout : String
deriving DecidableEq, Repr

/-- The struct `bigip.DestAddrPersistenceProfile`: it embeds
`PersistenceProfile`. -/
structure DestAddrPersistenceProfile extends PersistenceProfile where
  HashAlgorithm : String
  Mask : String
deriving DecidableEq, Repr

/-- The struct `bigip.SourceAddrPersistenceProfile`: it embeds
`PersistenceProfile`. -/
structure SourceAddrPersistenceProfile extends PersistenceProfile where
  HashAlgorithm : String
  MapProxies : String
  Mask : String
deriving DecidableEq, Repr

/-! ## The client -/

/-- The eight methods of `*bigip.BigIP` the two files call, over a device state
`σ`. A `Get…` returns a pointer (possibly nil) and an error. -/
structure BigIP (σ : Type) where
  CreateDestAddrPersistenceProfile : String → String → σ → Option GoError × σ
  GetDestAddrPersistenceProfile :
    String → σ → (Option DestAddrPersistenceProfile × Option GoError) × σ
  ModifyDestAddrPersistenceProfile :
    String → DestAddrPersistenceProfile → σ → Option GoError × σ
  DeleteDestAddrPersistenceProfile : String → σ → Option GoError × σ
  CreateSourceAddrPersistenceProfile : String → String → σ → Option GoError × σ
  GetSourceAddrPersistenceProfile :
    String → σ → (Option SourceAddrPersistenceProfile × Option GoError) × σ
  ModifySourceAddrPersistenceProfile :
    String → SourceAddrPersistenceProfile → σ → Option GoError × σ
  DeleteSourceAddrPersistenceProfile : String → σ → Option GoError × σ

/-- A client call together with its arguments, as recorded in the trace. -/
inductive Call where
  | CreateDestAddrPersistenceProfile (name parent : String)
  | GetDestAddrPersistenceProfile (name : String)
  | ModifyDestAddrPersistenceProfile (name : String) (pp : DestAddrPersistenceProfile)
  | DeleteDestAddrPersistenceProfile (name : String)
  | CreateSourceAddrPersistenceProfile (name parent : String)
  | GetSourceAddrPersistenceProfile (name : String)
  | ModifySourceAddrPersistenceProfile (name : String) (pp : SourceAddrPersistenceProfile)
  | DeleteSourceAddrPersistenceProfile (name : String)
deriving DecidableEq, Repr

/-! ## The schemas -/

/-- The value types of `schema.ValueType` that occur as a field type or as the
type of a default. -/
inductive ValueType where
  | TypeBool
  | TypeInt
  | TypeString
deriving DecidableEq, Repr

/-- The Go type of a dynamic value, as a schema value type. -/
def Value.valueType : Value → ValueType
  | Value.str _ => ValueType.TypeString
  | Value.int _ => ValueType.TypeInt
  | Value.bool _ => ValueType.TypeBool

/-- The shared validators the two schemas refer to (by name; they are defined
elsewhere in the provider). -/
inductive SchemaValidateFunc where
  | validateF5Name
  | validateEnabledDisabled
deriving DecidableEq, Repr

/-- The fields of `schema.Schema` the two files set; a field left out of a
literal has its Go zero value (`false`, `nil`, the empty string). `Ty` is the
field `Type`. -/
structure Schema where
  Ty : ValueType
  Required : Bool := false
  Optional : Bool := false
  Default : Option Value := none
  Description : String := ""
  ValidateFunc : Option SchemaValidateFunc := none
deriving DecidableEq, Repr

/-- The `Schema` map of the resource returned by
`resourceBigipLtmPersistenceProfileDstAddr`, entries in source order. -/
def resourceBigipLtmPersistenceProfileDstAddr : List (String × Schema) := [
  ("name", {
      Ty := ValueType.TypeString,
      Required := true,
      Description := "Name of the persistence profile",
      ValidateFunc := some SchemaValidateFunc.validateF5Name }),
  ("app_service", {
      Ty := ValueType.TypeString,
      Default := some (Value.str ""),
      Optional := true }),
  ("defaults_from", {
      Ty := ValueType.TypeString,
      Required := true,
      Description := "Inherit defaults from parent profile",
      ValidateFunc := some SchemaValidateFunc.validateF5Name }),
  ("match_across_pools", {
      Ty := ValueType.TypeString,
      Optional := true,
      Description := "To enable _ disable match across pools with given persistence record",
      ValidateFunc := some SchemaValidateFunc.validateEnabledDisabled }),
  ("match_across_services", {
      Ty := ValueType.TypeString,
      Optional := true,
      Description := "To enable _ disable match across services with given persistence record",
      ValidateFunc := some SchemaValidateFunc.validateEnabledDisabled }),
  ("match_across_virtuals", {
      Ty := ValueType.TypeString,
      Optional := true,
      Description := "To enable _ disable match across services with given persistence record",
      ValidateFunc := some SchemaValidateFunc.validateEnabledDisabled }),
  ("mirror", {
      Ty := ValueType.TypeString,
      Optional := true,
      Description := "To enable _ disable",
      ValidateFunc := some SchemaValidateFunc.validateEnabledDisabled }),
  ("timeout", {
      Ty := ValueType.TypeInt,
      Optional := true,
      Description := "Timeout for persistence of the session" }),
  ("override_conn_limit", {
      Ty := ValueType.TypeString,
      Default := some (Value.bool false),
      Optional := true,
      Description := "To enable _ disable that pool member connection limits are overridden for persisted clients. Per-virtual connection limits remain hard limits and are not overridden.",
      ValidateFunc := some SchemaValidateFunc.validateEnabledDisabled }),
  ("hash_algorithm", {
      Ty := ValueType.TypeString,
      Default := some (Value.str "default"),
      Optional := true,
      Description := "Specify the hash algorithm" }),
  ("mask", {
      Ty := ValueType.TypeString,
      Optional := true,
      Description := "Identify a range of source IP addresses to manage together as a single source address affinity persistent connection when connecting to the pool. Must be a valid IPv4 or IPv6 mask." })]

/-- The `Schema` map of the resource returned by
`resourceBigipLtmPersistenceProfileSrcAddr`, entries in source order. -/
def resourceBigipLtmPersistenceProfileSrcAddr : List (String × Schema) := [
  ("name", {
      Ty := ValueType.TypeString,
      Required := true,
      Description := "Name of the persistence profile",
      ValidateFunc := some SchemaValidateFunc.validateF5Name }),
  ("app_service", {
      Ty := ValueType.TypeString,
      Default := some (Value.str ""),
      Optional := true }),
  ("defaults_from", {
      Ty := ValueType.TypeString,
      Required := true,
      Description := "Inherit defaults from parent profile",
      ValidateFunc := some SchemaValidateFunc.validateF5Name }),
  ("match_across_pools", {
      Ty := ValueType.TypeString,
      Optional := true,
      Description := "To enable _ disable match across pools with given persistence record",
      ValidateFunc := some SchemaValidateFunc.validateEnabledDisabled }),
  ("match_across_services", {
      Ty := ValueType.TypeString,
      Optional := true,
      Description := "To enable _ disable match across services with given persistence record",
      ValidateFunc := some SchemaValidateFunc.validateEnabledDisabled }),
  ("match_across_virtuals", {
      Ty := ValueType.TypeString,
      Optional := true,
      Description := "To enable _ disable match across services with given persistence record",
      ValidateFunc := some SchemaValidateFunc.validateEnabledDisabled }),
  ("mirror", {
      Ty := ValueType.TypeString,
      Optional := true,
      Description := "To enable _ disable",
      ValidateFunc := some SchemaValidateFunc.validateEnabledDisabled }),
  ("timeout", {
      Ty := ValueType.TypeInt,
      Optional := true,
      Description := "Timeout for persistence of the session" }),
  ("override_conn_limit", {
      Ty := ValueType.TypeString,
      Default := some (Value.bool false),
      Optional := true,
      Description := "To enable _ disable that pool member connection limits are overridden for persisted clients. Per-virtual connection limits remain hard limits and are not overridden.",
      ValidateFunc := some SchemaValidateFunc.validateEnabledDisabled }),
  ("hash_algorithm", {
      Ty := ValueType.TypeString,
      Default := some (Value.str "default"),
      Optional := true,
      Description := "Specify the hash algorithm" }),
  ("map_proxies", {
      Ty := ValueType.TypeString,
      Default := some (Value.bool true),
      Optional := true,
      Description := "To enable _ disable directs all to the same single pool member",
      ValidateFunc := some SchemaValidateFunc.validateEnabledDisabled }),
  ("mask", {
      Ty := ValueType.TypeString,
      Optional := true,
      Description := "Identify a range of source IP addresses to manage together as a single source address affinity persistent connection when connecting to the pool. Must be a valid IPv4 or IPv6 mask." })]

/-- The keys of a schema map. -/
def schemaKeys (m : List (String × Schema)) : List String := m.map Prod.fst

/-- The keys of the fields of a schema map that satisfy `p`. -/
def schemaKeysWhere (m : List (String × Schema)) (p : Schema → Bool) : List String :=
  (m.filter fun kv => p kv.2).map Prod.fst

/-- Statement of the property "declared defaults are valid values": every
declared default has the declared type of its field, and a declared default of
a field validated by `validateEnabledDisabled` is `"enabled"` or `"disabled"`. -/
def DefaultsValid (m : List (String × Schema)) : Prop :=
  ∀ kv ∈ m, ∀ v, kv.2.Default = some v →
    v.valueType = kv.2.Ty ∧
    (kv.2.ValidateFunc = some SchemaValidateFunc.validateEnabledDisabled →
      v = Value.str "enabled" ∨ v = Value.str "disabled")

/-! ## The attribute store -/

/-- The declared type of the field `key` of a schema map, if the map has the
field. -/
def schemaType (m : List (String × Schema)) (key : String) : Option ValueType :=
  (m.lookup key).map fun s => s.Ty

/-- Model of the Terraform SDK type `schema.ResourceData`, which is not part of
the repository: the resource ID and a value per key. The schema map of the
resource the store belongs to is passed to `Set`. -/
structure ResourceData where
  id : String
  attrs : String → Value

namespace ResourceData

/-- The method `d.Id()`. -/
def Id (d : ResourceData) : String := d.id

/-- The method `d.SetId(v)`. -/
def SetId (d : ResourceData) (v : String) : ResourceData := { d with id := v }

/-- The method `d.Get(key)`. -/
def Get (d : ResourceData) (key : String) : Value := d.attrs key

/-- The method `d.Set(key, value)` on the store of a resource with schema map
`m`. The SDK decodes the value into the declared type of the field without
conversion: a value of another type (a string for a `TypeInt` field), or a key
that is not in the schema, gives an error and leaves the store as it was. -/
def Set (d : ResourceData) (m : List (String × Schema)) (key : String) (value : Value) :
    ResourceData × Option GoError :=
  match schemaType m key with
  | some ty =>
    if value.valueType = ty then
      ({ d with attrs := fun k => if k = key then value else d.attrs k }, none)
    else (d, some ⟨key ++ ": unconvertible type"⟩)
  | none => (d, some ⟨"Invalid address to set: " ++ key⟩)

end ResourceData

/-! ## Execution: state passing with panics -/

/-- Everything an operation can read or change: the store `d`, the device
behind the client, the trace of client calls, the trace of `d.Set` calls (key
and value handed over, accepted by the store or not) and the standard logger. -/
structure World (σ : Type) where
  d : ResourceData
  dev : σ
  calls : List Call
  sets : List (String × Value)
  log : List String

/-- An operation: from a world to a returned value or a panic, and the world
it leaves behind. -/
def Op (σ α : Type) : Type := World σ → Except Panic α × World σ

namespace Op

variable {σ α β : Type}

/-- Return a value, world unchanged. -/
def ret (a : α) : Op σ α := fun w => (Except.ok a, w)

/-- Sequencing: a panic of the first operation ends the run. -/
def andThen (x : Op σ α) (f : α → Op σ β) : Op σ β := fun w =>
  match x w with
  | (Except.ok a, w1) => f a w1
  | (Except.error p, w1) => (Except.error p, w1)

instance : Monad (Op σ) where
  pure := ret
  bind := andThen

/-- Raise a panic. -/
def throwPanic (p : Panic) : Op σ α := fun w => (Except.error p, w)

/-- The expression `d.Id()`. -/
def dId : Op σ String := fun w => (Except.ok w.d.Id, w)

/-- The statement `d.SetId(v)`. -/
def dSetId (v : String) : Op σ Unit := fun w => (Except.ok (), { w with d := w.d.SetId v })

/-- The expression `d.Get(key)`. -/
def dGet (key : String) : Op σ Value := fun w => (Except.ok (w.d.Get key), w)

/-- The statement `d.Set(key, value)` on the store of a resource with schema
map `m`; the error it returns is discarded by every caller. -/
def dSet (m : List (String × Schema)) (key : String) (value : Value) : Op σ Unit := fun w =>
  (Except.ok (), { w with d := (w.d.Set m key value).1, sets := w.sets ++ [(key, value)] })

/-- The type assertion `v.(string)`. -/
def assertString (v : Value) : Op σ String :=
  match v with
  | Value.str s => ret s
  | _ => throwPanic Panic.typeAssertion

/-- The type assertion `v.(int)`. -/
def assertInt (v : Value) : Op σ Int :=
  match v with
  | Value.int n => ret n
  | _ => throwPanic Panic.typeAssertion

/-- Access to the fields of `*pp`: panics on a nil pointer. -/
def deref {π : Type} (pp : Option π) : Op σ π :=
  match pp with
  | some p => ret p
  | none => throwPanic Panic.nilDereference

/-- The statement `log.Println(s)`. -/
def logPrintln (s : String) : Op σ Unit := fun w =>
  (Except.ok (), { w with log := w.log ++ [s] })

/-- A client call: runs the method on the device and records the call. -/
def call {ρ : Type} (c : Call) (method : σ → ρ × σ) : Op σ ρ := fun w =>
  (Except.ok (method w.dev).1, { w with dev := (method w.dev).2, calls := w.calls ++ [c] })

end Op

open Op

/-! ## `resource_bigip_ltm_persistence_profile_dstaddr.go` -/

variable {σ : Type}

/-- The function `resourceBigipLtmPersistenceProfileDstAddrRead`. -/
def resourceBigipLtmPersistenceProfileDstAddrRead (client : BigIP σ) :
    Op σ (Option GoError) := do
  let name ← dId
  logPrintln ("[INFO] Fetching Destination Address Persistence Profile " ++ name)
  let (pp, err) ← call (Call.GetDestAddrPersistenceProfile name)
    (client.GetDestAddrPersistenceProfile name)
  match err with
  | some e => return some e
  | none =>
    dSet resourceBigipLtmPersistenceProfileDstAddr "name"
      (Value.str name)
    let p ← deref pp
    dSet resourceBigipLtmPersistenceProfileDstAddr "app_service"
      (Value.str p.AppService)
    dSet resourceBigipLtmPersistenceProfileDstAddr "defaults_from"
      (Value.str p.DefaultsFrom)
    dSet resourceBigipLtmPersistenceProfileDstAddr "match_across_pools"
      (Value.str p.MatchAcrossPools)
    dSet resourceBigipLtmPersistenceProfileDstAddr "match_across_services"
      (Value.str p.MatchAcrossServices)
    dSet resourceBigipLtmPersistenceProfileDstAddr "match_across_virtuals"
      (Value.str p.MatchAcrossVirtuals)
    dSet resourceBigipLtmPersistenceProfileDstAddr "mirror"
      (Value.str p.Mirror)
    dSet resourceBigipLtmPersistenceProfileDstAddr "timeout"
      (Value.str p.Timeout)
    dSet resourceBigipLtmPersistenceProfileDstAddr "override_conn_limit"
      (Value.str p.OverrideConnectionLimit)
    -- Specific to DestAddrPersistenceProfile
    dSet resourceBigipLtmPersistenceProfileDstAddr "hash_algorithm"
      (Value.str p.HashAlgorithm)
    dSet resourceBigipLtmPersistenceProfileDstAddr "mask"
      (Value.str p.Mask)
    return none

/-- The composite literal `&bigip.DestAddrPersistenceProfile{…}` of
`resourceBigipLtmPersistenceProfileDstAddrUpdate`, fields evaluated in source
order. -/
def buildDestAddrPersistenceProfile : Op σ DestAddrPersistenceProfile := do
  let appService ← assertString (← dGet "app_service")
  let defaultsFrom ← assertString (← dGet "defaults_from")
  let matchAcrossPools ← assertString (← dGet "match_across_pools")
  let matchAcrossServices ← assertString (← dGet "match_across_services")
  let matchAcrossVirtuals ← assertString (← dGet "match_across_virtuals")
  let mirror ← assertString (← dGet "mirror")
  let overrideConnectionLimit ← assertString (← dGet "override_conn_limit")
  let timeout ← assertInt (← dGet "timeout")
  -- Specific to DestAddrPersistenceProfile
  let hashAlgorithm ← assertString (← dGet "hash_algorithm")
  let mask ← assertString (← dGet "mask")
  return {
    AppService := appService
    DefaultsFrom := defaultsFrom
    MatchAcrossPools := matchAcrossPools
    MatchAcrossServices := matchAcrossServices
    MatchAcrossVirtuals := matchAcrossVirtuals
    Mirror := mirror
    OverrideConnectionLimit := overrideConnectionLimit
    Timeout := Itoa timeout
    HashAlgorithm := hashAlgorithm
    Mask := mask }

/-- The function `resourceBigipLtmPersistenceProfileDstAddrUpdate`. -/
def resourceBigipLtmPersistenceProfileDstAddrUpdate (client : BigIP σ) :
    Op σ (Option GoError) := do
  let name ← dId
  let pp ← buildDestAddrPersistenceProfile
  let err ← call (Call.ModifyDestAddrPersistenceProfile name pp)
    (client.ModifyDestAddrPersistenceProfile name pp)
  match err with
  | some e => return some e
  | none => resourceBigipLtmPersistenceProfileDstAddrRead client

/-- The function `resourceBigipLtmPersistenceProfileDstAddrCreate`. The error
of the create call is assigned to `err` and overwritten by the result of the
update before it is read. -/
def resourceBigipLtmPersistenceProfileDstAddrCreate (client : BigIP σ) :
    Op σ (Option GoError) := do
  let name ← assertString (← dGet "name")
  let parent ← assertString (← dGet "defaults_from")
  let _err ← call (Call.CreateDestAddrPersistenceProfile name parent)
    (client.CreateDestAddrPersistenceProfile name parent)
  dSetId name
  let err ← resourceBigipLtmPersistenceProfileDstAddrUpdate client
  match err with
  | some e =>
    let _ ← call (Call.DeleteDestAddrPersistenceProfile name)
      (client.DeleteDestAddrPersistenceProfile name)
    return some e
  | none => resourceBigipLtmPersistenceProfileDstAddrRead client

/-- The function `resourceBigipLtmPersistenceProfileDstAddrDelete`. -/
def resourceBigipLtmPersistenceProfileDstAddrDelete (client : BigIP σ) :
    Op σ (Option GoError) := do
  let name ← dId
  logPrintln ("[INFO] Deleting Destination Address Persistence Profile " ++ name)
  call (Call.DeleteDestAddrPersistenceProfile name)
    (client.DeleteDestAddrPersistenceProfile name)

/-- The function `resourceBigipLtmPersistenceProfileDstAddrExists`. -/
def resourceBigipLtmPersistenceProfileDstAddrExists (client : BigIP σ) :
    Op σ (Bool × Option GoError) := do
  let name ← dId
  logPrintln ("[INFO] Fetching Destination Address Persistence Profile " ++ name)
  let (pp, err) ← call (Call.GetDestAddrPersistenceProfile name)
    (client.GetDestAddrPersistenceProfile name)
  match err with
  | some e => return (false, some e)
  | none =>
    if pp.isNone then
      dSetId ""
    return (pp.isSome, none)

/-- The function `resourceBigipPersistenceProfileDstAddrImporter`. -/
def resourceBigipPersistenceProfileDstAddrImporter (d : ResourceData) :
    List ResourceData × Option GoError := ([d], none)

/-! ## `resource_bigip_ltm_persistence_profile_srcaddr.go` -/

/-- The function `resourceBigipLtmPersistenceProfileSrcAddrRead`. -/
def resourceBigipLtmPersistenceProfileSrcAddrRead (client : BigIP σ) :
    Op σ (Option GoError) := do
  let name ← dId
  logPrintln ("[INFO] Fetching Source Address Persistence Profile " ++ name)
  let (pp, err) ← call (Call.GetSourceAddrPersistenceProfile name)
    (client.GetSourceAddrPersistenceProfile name)
  match err with
  | some e => return some e
  | none =>
    dSet resourceBigipLtmPersistenceProfileSrcAddr "name"
      (Value.str name)
    let p ← deref pp
    dSet resourceBigipLtmPersistenceProfileSrcAddr "app_service"
      (Value.str p.AppService)
    dSet resourceBigipLtmPersistenceProfileSrcAddr "defaults_from"
      (Value.str p.DefaultsFrom)
    dSet resourceBigipLtmPersistenceProfileSrcAddr "match_across_pools"
      (Value.str p.MatchAcrossPools)
    dSet resourceBigipLtmPersistenceProfileSrcAddr "match_across_services"
      (Value.str p.MatchAcrossServices)
    dSet resourceBigipLtmPersistenceProfileSrcAddr "match_across_virtuals"
      (Value.str p.MatchAcrossVirtuals)
    dSet resourceBigipLtmPersistenceProfileSrcAddr "mirror"
      (Value.str p.Mirror)
    dSet resourceBigipLtmPersistenceProfileSrcAddr "timeout"
      (Value.str p.Timeout)
    dSet resourceBigipLtmPersistenceProfileSrcAddr "override_conn_limit"
      (Value.str p.OverrideConnectionLimit)
    -- Specific to SourceAddrPersistenceProfile
    dSet resourceBigipLtmPersistenceProfileSrcAddr "hash_algorithm"
      (Value.str p.HashAlgorithm)
    dSet resourceBigipLtmPersistenceProfileSrcAddr "map_proxies"
      (Value.str p.MapProxies)
    dSet resourceBigipLtmPersistenceProfileSrcAddr "mask"
      (Value.str p.Mask)
    return none

/-- The composite literal `&bigip.SourceAddrPersistenceProfile{…}` of
`resourceBigipLtmPersistenceProfileSrcAddrUpdate`, fields evaluated in source
order. -/
def buildSourceAddrPersistenceProfile : Op σ SourceAddrPersistenceProfile := do
  let appService ← assertString (← dGet "app_service")
  let defaultsFrom ← assertString (← dGet "defaults_from")
  let matchAcrossPools ← assertString (← dGet "match_across_pools")
  let matchAcrossServices ← assertString (← dGet "match_across_services")
  let matchAcrossVirtuals ← assertString (← dGet "match_across_virtuals")
  let mirror ← assertString (← dGet "mirror")
  let overrideConnectionLimit ← assertString (← dGet "override_conn_limit")
  let timeout ← assertInt (← dGet "timeout")
  -- Specific to SourceAddrPersistenceProfile
  let hashAlgorithm ← assertString (← dGet "hash_algorithm")
  let mapProxies ← assertString (← dGet "map_proxies")
  let mask ← assertString (← dGet "mask")
  return {
    AppService := appService
    DefaultsFrom := defaultsFrom
    MatchAcrossPools := matchAcrossPools
    MatchAcrossServices := matchAcrossServices
    MatchAcrossVirtuals := matchAcrossVirtuals
    Mirror := mirror
    OverrideConnectionLimit := overrideConnectionLimit
    Timeout := Itoa timeout
    HashAlgorithm := hashAlgorithm
    MapProxies := mapProxies
    Mask := mask }

/-- The function `resourceBigipLtmPersistenceProfileSrcAddrUpdate`. -/
def resourceBigipLtmPersistenceProfileSrcAddrUpdate (client : BigIP σ) :
    Op σ (Option GoError) := do
  let name ← dId
  let pp ← buildSourceAddrPersistenceProfile
  let err ← call (Call.ModifySourceAddrPersistenceProfile name pp)
    (client.ModifySourceAddrPersistenceProfile name pp)
  match err with
  | some e => return some e
  | none => resourceBigipLtmPersistenceProfileSrcAddrRead client

/-- The function `resourceBigipLtmPersistenceProfileSrcAddrCreate`. The error
of the create call is assigned to `err` and overwritten by the result of the
update before it is read. -/
def resourceBigipLtmPersistenceProfileSrcAddrCreate (client : BigIP σ) :
    Op σ (Option GoError) := do
  let name ← assertString (← dGet "name")
  let parent ← assertString (← dGet "defaults_from")
  let _err ← call (Call.CreateSourceAddrPersistenceProfile name parent)
    (client.CreateSourceAddrPersistenceProfile name parent)
  dSetId name
  let err ← resourceBigipLtmPersistenceProfileSrcAddrUpdate client
  match err with
  | some e =>
    let _ ← call (Call.DeleteSourceAddrPersistenceProfile name)
      (client.DeleteSourceAddrPersistenceProfile name)
    return some e
  | none => resourceBigipLtmPersistenceProfileSrcAddrRead client

/-- The function `resourceBigipLtmPersistenceProfileSrcAddrDelete`. -/
def resourceBigipLtmPersistenceProfileSrcAddrDelete (client : BigIP σ) :
    Op σ (Option GoError) := do
  let name ← dId
  logPrintln ("[INFO] Deleting Source Address Persistence Profile " ++ name)
  call (Call.DeleteSourceAddrPersistenceProfile name)
    (client.DeleteSourceAddrPersistenceProfile name)

/-- The function `resourceBigipLtmPersistenceProfileSrcAddrExists`. -/
def resourceBigipLtmPersistenceProfileSrcAddrExists (client : BigIP σ) :
    Op σ (Bool × Option GoError) := do
  let name ← dId
  logPrintln ("[INFO] Fetching Source Address Persistence Profile " ++ name)
  let (pp, err) ← call (Call.GetSourceAddrPersistenceProfile name)
    (client.GetSourceAddrPersistenceProfile name)
  match err with
  | some e => return (false, some e)
  | none =>
    if pp.isNone then
      dSetId ""
    return (pp.isSome, none)

/-- The function `resourceBigipPersistenceProfileSrcAddrImporter`. -/
def resourceBigipPersistenceProfileSrcAddrImporter (d : ResourceData) :
    List ResourceData × Option GoError := ([d], none)

/-! ## Sample devices and stores -/

/-- A device without state that answers every call of one kind the same way. -/
def fixedDevice (create modify delete : Option GoError)
    (getDest : Option DestAddrPersistenceProfile × Option GoError)
    (getSource : Option SourceAddrPersistenceProfile × Option GoError) : BigIP Unit where
  CreateDestAddrPersistenceProfile _ _ s := (create, s)
  GetDestAddrPersistenceProfile _ s := (getDest, s)
  ModifyDestAddrPersistenceProfile _ _ s := (modify, s)
  DeleteDestAddrPersistenceProfile _ s := (delete, s)
  CreateSourceAddrPersistenceProfile _ _ s := (create, s)
  GetSourceAddrPersistenceProfile _ s := (getSource, s)
  ModifySourceAddrPersistenceProfile _ _ s := (modify, s)
  DeleteSourceAddrPersistenceProfile _ s := (delete, s)

/-- A device that keeps the profile last sent by a modify call and returns it
on a get; every call succeeds. -/
def echoDevice :
    BigIP (Option DestAddrPersistenceProfile × Option SourceAddrPersistenceProfile) where
  CreateDestAddrPersistenceProfile _ _ s := (none, s)
  GetDestAddrPersistenceProfile _ s := ((s.1, none), s)
  ModifyDestAddrPersistenceProfile _ pp s := (none, (some pp, s.2))
  DeleteDestAddrPersistenceProfile _ s := (none, (none, s.2))
  CreateSourceAddrPersistenceProfile _ _ s := (none, s)
  GetSourceAddrPersistenceProfile _ s := ((s.2, none), s)
  ModifySourceAddrPersistenceProfile _ pp s := (none, (s.1, some pp))
  DeleteSourceAddrPersistenceProfile _ s := (none, (s.1, none))

/-- A store as Terraform hands it to an operation: every string field holds a
string, `timeout` holds an integer; the ID differs from the `name` attribute. -/
def sampleData : ResourceData where
  id := "/Common/id1"
  attrs k :=
    if k = "name" then Value.str "/Common/p1"
    else if k = "defaults_from" then Value.str "/Common/parent"
    else if k = "mirror" then Value.str "enabled"
    else if k = "timeout" then Value.int (-7)
    else if k = "hash_algorithm" then Value.str "default"
    else Value.str ""

/-- A world around `sampleData` with empty traces and an empty log. -/
def sampleWorld {σ : Type} (dev : σ) : World σ where
  d := sampleData
  dev := dev
  calls := []
  sets := []
  log := []

/-- A destination-address profile as a device may return it. -/
def sampleDestProfile : DestAddrPersistenceProfile where
  AppService := "none"
  DefaultsFrom := "/Common/dest_addr"
  MatchAcrossPools := "disabled"
  MatchAcrossServices := "disabled"
  MatchAcrossVirtuals := "disabled"
  Mirror := "disabled"
  OverrideConnectionLimit := "disabled"
  Timeout := "180"
  HashAlgorithm := "default"
  Mask := "255.255.255.255"

/-- A source-address profile as a device may return it. -/
def sampleSourceProfile : SourceAddrPersistenceProfile where
  AppService := "none"
  DefaultsFrom := "/Common/source_addr"
  MatchAcrossPools := "disabled"
  MatchAcrossServices := "disabled"
  MatchAcrossVirtuals := "disabled"
  Mirror := "disabled"
  OverrideConnectionLimit := "disabled"
  Timeout := "180"
  HashAlgorithm := "default"
  MapProxies := "enabled"
  Mask := "255.255.255.255"

/-- A device on which every call succeeds and every get returns the sample
profile. -/
def healthyDevice : BigIP Unit :=
  fixedDevice none none none (some sampleDestProfile, none) (some sampleSourceProfile, none)

/-- A device on which modify and delete fail. -/
def modifyFailsDevice : BigIP Unit :=
  fixedDevice none (some ⟨"modify failed"⟩) (some ⟨"delete failed"⟩)
    (some sampleDestProfile, none) (some sampleSourceProfile, none)

/-- A device on which get fails. -/
def getFailsDevice : BigIP Unit :=
  fixedDevice none none none (none, some ⟨"get failed"⟩) (none, some ⟨"get failed"⟩)

/-- A device on which create fails and every other call succeeds. -/
def createFailsDevice : BigIP Unit :=
  fixedDevice (some ⟨"create failed"⟩) none none
    (some sampleDestProfile, none) (some sampleSourceProfile, none)

/-- A device that has no profile: get returns a nil profile and a nil error,
the answer of `go-bigip` for an object that is not on the device. -/
def missingDevice : BigIP Unit :=
  fixedDevice none none none (none, none) (none, none)

/-- The world in which `resourceBigipLtmPersistenceProfileDstAddrCreate` runs
its update step: after the create call and `d.SetId(name)`. -/
def dstAddrCreated (client : BigIP σ) (w : World σ) (name parent : String) : World σ :=
  { w with
    d := w.d.SetId name
    dev := (client.CreateDestAddrPersistenceProfile name parent w.dev).2
    calls := w.calls ++ [Call.CreateDestAddrPersistenceProfile name parent] }

/-- The world in which `resourceBigipLtmPersistenceProfileSrcAddrCreate` runs
its update step: after the create call and `d.SetId(name)`. -/
def srcAddrCreated (client : BigIP σ) (w : World σ) (name parent : String) : World σ :=
  { w with
    d := w.d.SetId name
    dev := (client.CreateSourceAddrPersistenceProfile name parent w.dev).2
    calls := w.calls ++ [Call.CreateSourceAddrPersistenceProfile name parent] }

/-! ## Decimal rendering and reading -/

theorem digitChar_isDigit (d : Nat) (h : d < 10) : (digitChar d).isDigit = true := by
  interval_cases d <;> rfl

theorem digitChar_value (d : Nat) (h : d < 10) : (digitChar d).toNat - 48 = d := by
  interval_cases d <;> rfl

theorem decimalDigits_spec (fuel : Nat) :
    ∀ n, n < fuel →
      decimalDigits fuel n ≠ [] ∧ (decimalDigits fuel n).all Char.isDigit = true ∧
      (decimalDigits fuel n).foldl decimalStep 0 = n := by
  induction fuel with
  | zero => intro n h; omega
  | succ fuel ih =>
    intro n h
    unfold decimalDigits
    by_cases hn : n < 10
    · simp [hn, digitChar_isDigit n hn, decimalStep, digitChar_value n hn]
    · have hlt : n / 10 < fuel := by omega
      have hmod : n % 10 < 10 := Nat.mod_lt _ (by decide)
      obtain ⟨_, hall, hval⟩ := ih (n / 10) hlt
      simp only [hn, if_false]
      refine ⟨by simp, ?_, ?_⟩
      · simp only [List.all_append, hall, List.all_cons, digitChar_isDigit _ hmod, List.all_nil,
          Bool.and_self]
      · rw [List.foldl_append, hval]
        simp only [List.foldl_cons, List.foldl_nil, decimalStep, digitChar_value _ hmod]
        omega

theorem parseDigits_natToDecimal (n : Nat) : parseDigits (natToDecimal n) = some n := by
  obtain ⟨hne, hall, hval⟩ := decimalDigits_spec (n + 1) n (Nat.lt_succ_self n)
  simp [parseDigits, natToDecimal, hne, hall, hval]

theorem natToDecimal_head (n : Nat) (cs : List Char) : natToDecimal n ≠ '-' :: cs := by
  intro h
  obtain ⟨_, hall, _⟩ := decimalDigits_spec (n + 1) n (Nat.lt_succ_self n)
  rw [natToDecimal] at h
  rw [h] at hall
  simp at hall

theorem parseDecimal_Itoa (i : Int) : parseDecimal (Itoa i) = some i := by
  cases i with
  | ofNat n =>
    simp only [Itoa, parseDecimal]
    split
    · next cs h => exact absurd h (natToDecimal_head n cs)
    · simp [parseDigits_natToDecimal]
  | negSucc n =>
    simp only [Itoa, parseDecimal, parseDigits_natToDecimal, Option.map_some']
    simp [Int.negSucc_eq]


/-! ## Unfolding lemmas for runs -/

section Runs

variable {α β : Type}

@[simp] theorem Op.pure_run (a : α) (w : World σ) :
    (pure a : Op σ α) w = (Except.ok a, w) := rfl

@[simp] theorem Op.bind_run (x : Op σ α) (f : α → Op σ β) (w : World σ) :
    (x >>= f) w = Op.andThen x f w := rfl

end Runs

section Runs

variable {β : Type}

theorem Op.getString_run (key : String) (f : String → Op σ β) (w : World σ) :
    (Op.dGet key >>= fun v => Op.assertString v >>= f) w =
      match w.d.Get key with
      | Value.str s => f s w
      | _ => (Except.error Panic.typeAssertion, w) := by
  simp only [Op.bind_run, Op.andThen, Op.dGet]
  cases w.d.Get key <;> rfl

theorem Op.getInt_run (key : String) (f : Int → Op σ β) (w : World σ) :
    (Op.dGet key >>= fun v => Op.assertInt v >>= f) w =
      match w.d.Get key with
      | Value.int n => f n w
      | _ => (Except.error Panic.typeAssertion, w) := by
  simp only [Op.bind_run, Op.andThen, Op.dGet]
  cases w.d.Get key <;> rfl

end Runs

/-! ## The store -/

theorem ResourceData.Set_string (d : ResourceData) (m : List (String × Schema))
    (key s : String) (h : schemaType m key = some ValueType.TypeString) :
    (d.Set m key (Value.str s)).1 =
      { d with attrs := fun k => if k = key then Value.str s else d.attrs k } := by
  simp [ResourceData.Set, h, Value.valueType]

theorem ResourceData.Set_string_int (d : ResourceData) (m : List (String × Schema))
    (key s : String) (h : schemaType m key = some ValueType.TypeInt) :
    (d.Set m key (Value.str s)).1 = d := by
  simp [ResourceData.Set, h, Value.valueType]

theorem ResourceData.Set_id (d : ResourceData) (m : List (String × Schema))
    (key : String) (value : Value) : (d.Set m key value).1.id = d.id := by
  unfold ResourceData.Set
  split
  · split <;> rfl
  · rfl

theorem buildDest_world (w : World σ) : (buildDestAddrPersistenceProfile w).2 = w := by
  unfold buildDestAddrPersistenceProfile
  simp only [Op.getString_run, Op.getInt_run, Op.pure_run]
  repeat' split
  all_goals rfl

theorem buildDest_congr (w w1 : World σ) (h : w1.d.attrs = w.d.attrs) :
    (buildDestAddrPersistenceProfile w1).1 = (buildDestAddrPersistenceProfile w).1 := by
  unfold buildDestAddrPersistenceProfile
  simp only [Op.getString_run, Op.getInt_run, Op.pure_run, ResourceData.Get, h]
  repeat' split
  all_goals rfl

theorem dstRead_err (client : BigIP σ) (w : World σ)
    (pp : Option DestAddrPersistenceProfile) (e : GoError) (s : σ)
    (h : client.GetDestAddrPersistenceProfile w.d.Id w.dev = ((pp, some e), s)) :
    resourceBigipLtmPersistenceProfileDstAddrRead client w =
      (Except.ok (some e),
        { w with
          dev := s
          calls := w.calls ++ [Call.GetDestAddrPersistenceProfile w.d.Id]
          log := w.log ++
            ["[INFO] Fetching Destination Address Persistence Profile " ++ w.d.Id] }) := by
  simp [resourceBigipLtmPersistenceProfileDstAddrRead, Op.andThen, Op.dId, Op.logPrintln,
    Op.call, h]

theorem dstSchema_types :
    (∀ k ∈ ["name", "app_service", "defaults_from", "match_across_pools",
        "match_across_services", "match_across_virtuals", "mirror", "override_conn_limit",
        "hash_algorithm", "mask"],
      schemaType resourceBigipLtmPersistenceProfileDstAddr k = some ValueType.TypeString) ∧
    schemaType resourceBigipLtmPersistenceProfileDstAddr "timeout" = some ValueType.TypeInt := by
  refine ⟨?_, rfl⟩
  intro k hk
  simp only [List.mem_cons, List.mem_singleton, List.not_mem_nil, or_false] at hk
  rcases hk with rfl | rfl | rfl | rfl | rfl | rfl | rfl | rfl | rfl | rfl <;> rfl

theorem dstRead_nil (client : BigIP σ) (w : World σ) (s : σ)
    (h : client.GetDestAddrPersistenceProfile w.d.Id w.dev = ((none, none), s)) :
    resourceBigipLtmPersistenceProfileDstAddrRead client w =
      (Except.error Panic.nilDereference,
        { d := (w.d.Set resourceBigipLtmPersistenceProfileDstAddr "name"
            (Value.str w.d.Id)).1
          dev := s
          calls := w.calls ++ [Call.GetDestAddrPersistenceProfile w.d.Id]
          sets := w.sets ++ [("name", Value.str w.d.Id)]
          log := w.log ++
            ["[INFO] Fetching Destination Address Persistence Profile " ++ w.d.Id] }) := by
  simp [resourceBigipLtmPersistenceProfileDstAddrRead, Op.andThen, Op.dId, Op.logPrintln,
    Op.call, Op.dSet, Op.deref, Op.throwPanic, h]

theorem dstRead_ok (client : BigIP σ) (w : World σ) (p : DestAddrPersistenceProfile) (s : σ)
    (h : client.GetDestAddrPersistenceProfile w.d.Id w.dev = ((some p, none), s)) :
    resourceBigipLtmPersistenceProfileDstAddrRead client w =
      (Except.ok none,
        { d :=
            { id := w.d.id
              attrs := fun k =>
                if k = "mask" then Value.str p.Mask
                else if k = "hash_algorithm" then Value.str p.HashAlgorithm
                else if k = "override_conn_limit" then Value.str p.OverrideConnectionLimit
                else if k = "mirror" then Value.str p.Mirror
                else if k = "match_across_virtuals" then Value.str p.MatchAcrossVirtuals
                else if k = "match_across_services" then Value.str p.MatchAcrossServices
                else if k = "match_across_pools" then Value.str p.MatchAcrossPools
                else if k = "defaults_from" then Value.str p.DefaultsFrom
                else if k = "app_service" then Value.str p.AppService
                else if k = "name" then Value.str w.d.Id
                else w.d.attrs k }
          dev := s
          calls := w.calls ++ [Call.GetDestAddrPersistenceProfile w.d.Id]
          sets := w.sets ++
            [("name", Value.str w.d.Id),
              ("app_service", Value.str p.AppService),
              ("defaults_from", Value.str p.DefaultsFrom),
              ("match_across_pools", Value.str p.MatchAcrossPools),
              ("match_across_services", Value.str p.MatchAcrossServices),
              ("match_across_virtuals", Value.str p.MatchAcrossVirtuals),
              ("mirror", Value.str p.Mirror),
              ("timeout", Value.str p.Timeout),
              ("override_conn_limit", Value.str p.OverrideConnectionLimit),
              ("hash_algorithm", Value.str p.HashAlgorithm),
              ("mask", Value.str p.Mask)]
          log := w.log ++
            ["[INFO] Fetching Destination Address Persistence Profile " ++ w.d.Id] }) := by
  have hs := dstSchema_types.1
  have ht := dstSchema_types.2
  simp only [resourceBigipLtmPersistenceProfileDstAddrRead, Op.bind_run, Op.andThen, Op.dId,
    Op.logPrintln, Op.call, Op.dSet, Op.deref, Op.ret, Op.pure_run, h]
  rw [ResourceData.Set_string _ _ "name" _ (hs _ (by simp)),
    ResourceData.Set_string _ _ "app_service" _ (hs _ (by simp)),
    ResourceData.Set_string _ _ "defaults_from" _ (hs _ (by simp)),
    ResourceData.Set_string _ _ "match_across_pools" _ (hs _ (by simp)),
    ResourceData.Set_string _ _ "match_across_services" _ (hs _ (by simp)),
    ResourceData.Set_string _ _ "match_across_virtuals" _ (hs _ (by simp)),
    ResourceData.Set_string _ _ "mirror" _ (hs _ (by simp)),
    ResourceData.Set_string_int _ _ "timeout" _ ht,
    ResourceData.Set_string _ _ "override_conn_limit" _ (hs _ (by simp)),
    ResourceData.Set_string _ _ "hash_algorithm" _ (hs _ (by simp)),
    ResourceData.Set_string _ _ "mask" _ (hs _ (by simp))]
  simp only [List.append_assoc, List.cons_append, List.nil_append, ResourceData.Id]

theorem dstUpdate_run (client : BigIP σ) (w : World σ) (pp : DestAddrPersistenceProfile)
    (h : (buildDestAddrPersistenceProfile w).1 = Except.ok pp) :
    resourceBigipLtmPersistenceProfileDstAddrUpdate client w =
      match (client.ModifyDestAddrPersistenceProfile w.d.Id pp w.dev).1 with
      | some e =>
        (Except.ok (some e),
          { w with
            dev := (client.ModifyDestAddrPersistenceProfile w.d.Id pp w.dev).2
            calls := w.calls ++ [Call.ModifyDestAddrPersistenceProfile w.d.Id pp] })
      | none =>
        resourceBigipLtmPersistenceProfileDstAddrRead client
          { w with
            dev := (client.ModifyDestAddrPersistenceProfile w.d.Id pp w.dev).2
            calls := w.calls ++ [Call.ModifyDestAddrPersistenceProfile w.d.Id pp] } := by
  have hb : buildDestAddrPersistenceProfile w = (Except.ok pp, w) := by
    exact Prod.ext h (buildDest_world w)
  simp only [resourceBigipLtmPersistenceProfileDstAddrUpdate, Op.bind_run, Op.andThen, Op.dId,
    Op.call, hb, Op.pure_run]
  cases (client.ModifyDestAddrPersistenceProfile w.d.Id pp w.dev).1 <;> rfl

theorem dstUpdate_panic (client : BigIP σ) (w : World σ) (p : Panic)
    (h : (buildDestAddrPersistenceProfile w).1 = Except.error p) :
    resourceBigipLtmPersistenceProfileDstAddrUpdate client w = (Except.error p, w) := by
  have hb : buildDestAddrPersistenceProfile w = (Except.error p, w) := by
    exact Prod.ext h (buildDest_world w)
  simp only [resourceBigipLtmPersistenceProfileDstAddrUpdate, Op.bind_run, Op.andThen, Op.dId,
    hb]

theorem dstCreate_run (client : BigIP σ) (w : World σ) (name parent : String)
    (hname : w.d.Get "name" = Value.str name)
    (hparent : w.d.Get "defaults_from" = Value.str parent) :
    resourceBigipLtmPersistenceProfileDstAddrCreate client w =
      match resourceBigipLtmPersistenceProfileDstAddrUpdate client
          (dstAddrCreated client w name parent) with
      | (Except.ok (some e), w2) =>
        (Except.ok (some e),
          { w2 with
            dev := (client.DeleteDestAddrPersistenceProfile name w2.dev).2
            calls := w2.calls ++ [Call.DeleteDestAddrPersistenceProfile name] })
      | (Except.ok none, w2) => resourceBigipLtmPersistenceProfileDstAddrRead client w2
      | (Except.error p, w2) => (Except.error p, w2) := by
  simp only [resourceBigipLtmPersistenceProfileDstAddrCreate, Op.bind_run, Op.andThen, Op.dGet,
    Op.assertString, Op.ret, Op.call, Op.dSetId, hname, hparent, Op.pure_run, dstAddrCreated]
  rcases resourceBigipLtmPersistenceProfileDstAddrUpdate client _ with ⟨r, w2⟩
  rcases r with p | e | e <;> rfl

theorem buildSource_world (w : World σ) : (buildSourceAddrPersistenceProfile w).2 = w := by
  unfold buildSourceAddrPersistenceProfile
  simp only [Op.getString_run, Op.getInt_run, Op.pure_run]
  repeat' split
  all_goals rfl

theorem buildSource_congr (w w1 : World σ) (h : w1.d.attrs = w.d.attrs) :
    (buildSourceAddrPersistenceProfile w1).1 = (buildSourceAddrPersistenceProfile w).1 := by
  unfold buildSourceAddrPersistenceProfile
  simp only [Op.getString_run, Op.getInt_run, Op.pure_run, ResourceData.Get, h]
  repeat' split
  all_goals rfl

theorem srcRead_err (client : BigIP σ) (w : World σ)
    (pp : Option SourceAddrPersistenceProfile) (e : GoError) (s : σ)
    (h : client.GetSourceAddrPersistenceProfile w.d.Id w.dev = ((pp, some e), s)) :
    resourceBigipLtmPersistenceProfileSrcAddrRead client w =
      (Except.ok (some e),
        { w with
          dev := s
          calls := w.calls ++ [Call.GetSourceAddrPersistenceProfile w.d.Id]
          log := w.log ++
            ["[INFO] Fetching Source Address Persistence Profile " ++ w.d.Id] }) := by
  simp [resourceBigipLtmPersistenceProfileSrcAddrRead, Op.andThen, Op.dId, Op.logPrintln,
    Op.call, h]

theorem srcSchema_types :
    (∀ k ∈ ["name", "app_service", "defaults_from", "match_across_pools",
        "match_across_services", "match_across_virtuals", "mirror", "override_conn_limit",
        "hash_algorithm", "mask", "map_proxies"],
      schemaType resourceBigipLtmPersistenceProfileSrcAddr k = some ValueType.TypeString) ∧
    schemaType resourceBigipLtmPersistenceProfileSrcAddr "timeout" = some ValueType.TypeInt := by
  refine ⟨?_, rfl⟩
  intro k hk
  simp only [List.mem_cons, List.mem_singleton, List.not_mem_nil, or_false] at hk
  rcases hk with rfl | rfl | rfl | rfl | rfl | rfl | rfl | rfl | rfl | rfl | rfl <;> rfl

theorem srcRead_nil (client : BigIP σ) (w : World σ) (s : σ)
    (h : client.GetSourceAddrPersistenceProfile w.d.Id w.dev = ((none, none), s)) :
    resourceBigipLtmPersistenceProfileSrcAddrRead client w =
      (Except.error Panic.nilDereference,
        { d := (w.d.Set resourceBigipLtmPersistenceProfileSrcAddr "name"
            (Value.str w.d.Id)).1
          dev := s
          calls := w.calls ++ [Call.GetSourceAddrPersistenceProfile w.d.Id]
          sets := w.sets ++ [("name", Value.str w.d.Id)]
          log := w.log ++
            ["[INFO] Fetching Source Address Persistence Profile " ++ w.d.Id] }) := by
  simp [resourceBigipLtmPersistenceProfileSrcAddrRead, Op.andThen, Op.dId, Op.logPrintln,
    Op.call, Op.dSet, Op.deref, Op.throwPanic, h]

theorem srcRead_ok (client : BigIP σ) (w : World σ) (p : SourceAddrPersistenceProfile) (s : σ)
    (h : client.GetSourceAddrPersistenceProfile w.d.Id w.dev = ((some p, none), s)) :
    resourceBigipLtmPersistenceProfileSrcAddrRead client w =
      (Except.ok none,
        { d :=
            { id := w.d.id
              attrs := fun k =>
                if k = "mask" then Value.str p.Mask
                else if k = "map_proxies" then Value.str p.MapProxies
                else if k = "hash_algorithm" then Value.str p.HashAlgorithm
                else if k = "override_conn_limit" then Value.str p.OverrideConnectionLimit
                else if k = "mirror" then Value.str p.Mirror
                else if k = "match_across_virtuals" then Value.str p.MatchAcrossVirtuals
                else if k = "match_across_services" then Value.str p.MatchAcrossServices
                else if k = "match_across_pools" then Value.str p.MatchAcrossPools
                else if k = "defaults_from" then Value.str p.DefaultsFrom
                else if k = "app_service" then Value.str p.AppService
                else if k = "name" then Value.str w.d.Id
                else w.d.attrs k }
          dev := s
          calls := w.calls ++ [Call.GetSourceAddrPersistenceProfile w.d.Id]
          sets := w.sets ++
            [("name", Value.str w.d.Id),
              ("app_service", Value.str p.AppService),
              ("defaults_from", Value.str p.DefaultsFrom),
              ("match_across_pools", Value.str p.MatchAcrossPools),
              ("match_across_services", Value.str p.MatchAcrossServices),
              ("match_across_virtuals", Value.str p.MatchAcrossVirtuals),
              ("mirror", Value.str p.Mirror),
              ("timeout", Value.str p.Timeout),
              ("override_conn_limit", Value.str p.OverrideConnectionLimit),
              ("hash_algorithm", Value.str p.HashAlgorithm),
              ("map_proxies", Value.str p.MapProxies),
              ("mask", Value.str p.Mask)]
          log := w.log ++
            ["[INFO] Fetching Source Address Persistence Profile " ++ w.d.Id] }) := by
  have hs := srcSchema_types.1
  have ht := srcSchema_types.2
  simp only [resourceBigipLtmPersistenceProfileSrcAddrRead, Op.bind_run, Op.andThen, Op.dId,
    Op.logPrintln, Op.call, Op.dSet, Op.deref, Op.ret, Op.pure_run, h]
  rw [ResourceData.Set_string _ _ "name" _ (hs _ (by simp)),
    ResourceData.Set_string _ _ "app_service" _ (hs _ (by simp)),
    ResourceData.Set_string _ _ "defaults_from" _ (hs _ (by simp)),
    ResourceData.Set_string _ _ "match_across_pools" _ (hs _ (by simp)),
    ResourceData.Set_string _ _ "match_across_services" _ (hs _ (by simp)),
    ResourceData.Set_string _ _ "match_across_virtuals" _ (hs _ (by simp)),
    ResourceData.Set_string _ _ "mirror" _ (hs _ (by simp)),
    ResourceData.Set_string_int _ _ "timeout" _ ht,
    ResourceData.Set_string _ _ "override_conn_limit" _ (hs _ (by simp)),
    ResourceData.Set_string _ _ "hash_algorithm" _ (hs _ (by simp)),
    ResourceData.Set_string _ _ "map_proxies" _ (hs _ (by simp)),
    ResourceData.Set_string _ _ "mask" _ (hs _ (by simp))]
  simp only [List.append_assoc, List.cons_append, List.nil_append, ResourceData.Id]

theorem srcUpdate_run (client : BigIP σ) (w : World σ) (pp : SourceAddrPersistenceProfile)
    (h : (buildSourceAddrPersistenceProfile w).1 = Except.ok pp) :
    resourceBigipLtmPersistenceProfileSrcAddrUpdate client w =
      match (client.ModifySourceAddrPersistenceProfile w.d.Id pp w.dev).1 with
      | some e =>
        (Except.ok (some e),
          { w with
            dev := (client.ModifySourceAddrPersistenceProfile w.d.Id pp w.dev).2
            calls := w.calls ++ [Call.ModifySourceAddrPersistenceProfile w.d.Id pp] })
      | none =>
        resourceBigipLtmPersistenceProfileSrcAddrRead client
          { w with
            dev := (client.ModifySourceAddrPersistenceProfile w.d.Id pp w.dev).2
            calls := w.calls ++ [Call.ModifySourceAddrPersistenceProfile w.d.Id pp] } := by
  have hb : buildSourceAddrPersistenceProfile w = (Except.ok pp, w) := by
    exact Prod.ext h (buildSource_world w)
  simp only [resourceBigipLtmPersistenceProfileSrcAddrUpdate, Op.bind_run, Op.andThen, Op.dId,
    Op.call, hb, Op.pure_run]
  cases (client.ModifySourceAddrPersistenceProfile w.d.Id pp w.dev).1 <;> rfl

theorem srcUpdate_panic (client : BigIP σ) (w : World σ) (p : Panic)
    (h : (buildSourceAddrPersistenceProfile w).1 = Except.error p) :
    resourceBigipLtmPersistenceProfileSrcAddrUpdate client w = (Except.error p, w) := by
  have hb : buildSourceAddrPersistenceProfile w = (Except.error p, w) := by
    exact Prod.ext h (buildSource_world w)
  simp only [resourceBigipLtmPersistenceProfileSrcAddrUpdate, Op.bind_run, Op.andThen, Op.dId,
    hb]

theorem srcCreate_run (client : BigIP σ) (w : World σ) (name parent : String)
    (hname : w.d.Get "name" = Value.str name)
    (hparent : w.d.Get "defaults_from" = Value.str parent) :
    resourceBigipLtmPersistenceProfileSrcAddrCreate client w =
      match resourceBigipLtmPersistenceProfileSrcAddrUpdate client
          (srcAddrCreated client w name parent) with
      | (Except.ok (some e), w2) =>
        (Except.ok (some e),
          { w2 with
            dev := (client.DeleteSourceAddrPersistenceProfile name w2.dev).2
            calls := w2.calls ++ [Call.DeleteSourceAddrPersistenceProfile name] })
      | (Except.ok none, w2) => resourceBigipLtmPersistenceProfileSrcAddrRead client w2
      | (Except.error p, w2) => (Except.error p, w2) := by
  simp only [resourceBigipLtmPersistenceProfileSrcAddrCreate, Op.bind_run, Op.andThen, Op.dGet,
    Op.assertString, Op.ret, Op.call, Op.dSetId, hname, hparent, Op.pure_run, srcAddrCreated]
  rcases resourceBigipLtmPersistenceProfileSrcAddrUpdate client _ with ⟨r, w2⟩
  rcases r with p | e | e <;> rfl


/-! ## Create -/

theorem dstUpdate_err (client : BigIP σ) (w : World σ) (e : GoError)
    (h : (resourceBigipLtmPersistenceProfileDstAddrUpdate client w).1 = Except.ok (some e)) :
    (resourceBigipLtmPersistenceProfileDstAddrUpdate client w).2.d = w.d ∧
    ∃ pp : DestAddrPersistenceProfile,
      (resourceBigipLtmPersistenceProfileDstAddrUpdate client w).2.calls =
        w.calls ++ [Call.ModifyDestAddrPersistenceProfile w.d.Id pp] ∨
      (resourceBigipLtmPersistenceProfileDstAddrUpdate client w).2.calls =
        w.calls ++ [Call.ModifyDestAddrPersistenceProfile w.d.Id pp,
          Call.GetDestAddrPersistenceProfile w.d.Id] := by
  cases hb : (buildDestAddrPersistenceProfile w).1 with
  | error p =>
    rw [dstUpdate_panic client w p hb] at h
    simp at h
  | ok pp =>
    rw [dstUpdate_run client w pp hb] at h ⊢
    cases hm : (client.ModifyDestAddrPersistenceProfile w.d.Id pp w.dev).1 with
    | some e1 =>
      exact ⟨rfl, pp, Or.inl rfl⟩
    | none =>
      rw [hm] at h
      dsimp only at h ⊢
      rcases hg : client.GetDestAddrPersistenceProfile w.d.Id
        (client.ModifyDestAddrPersistenceProfile w.d.Id pp w.dev).2 with ⟨⟨p, err⟩, s⟩
      cases err with
      | some e2 =>
        rw [dstRead_err client _ p e2 s hg]
        exact ⟨rfl, pp, Or.inr (by simp [ResourceData.Id])⟩
      | none =>
        cases p with
        | none =>
          rw [dstRead_nil client _ s hg] at h
          simp at h
        | some p1 =>
          rw [dstRead_ok client _ p1 s hg] at h
          simp at h

theorem srcUpdate_err (client : BigIP σ) (w : World σ) (e : GoError)
    (h : (resourceBigipLtmPersistenceProfileSrcAddrUpdate client w).1 = Except.ok (some e)) :
    (resourceBigipLtmPersistenceProfileSrcAddrUpdate client w).2.d = w.d ∧
    ∃ pp : SourceAddrPersistenceProfile,
      (resourceBigipLtmPersistenceProfileSrcAddrUpdate client w).2.calls =
        w.calls ++ [Call.ModifySourceAddrPersistenceProfile w.d.Id pp] ∨
      (resourceBigipLtmPersistenceProfileSrcAddrUpdate client w).2.calls =
        w.calls ++ [Call.ModifySourceAddrPersistenceProfile w.d.Id pp,
          Call.GetSourceAddrPersistenceProfile w.d.Id] := by
  cases hb : (buildSourceAddrPersistenceProfile w).1 with
  | error p =>
    rw [srcUpdate_panic client w p hb] at h
    simp at h
  | ok pp =>
    rw [srcUpdate_run client w pp hb] at h ⊢
    cases hm : (client.ModifySourceAddrPersistenceProfile w.d.Id pp w.dev).1 with
    | some e1 =>
      exact ⟨rfl, pp, Or.inl rfl⟩
    | none =>
      rw [hm] at h
      dsimp only at h ⊢
      rcases hg : client.GetSourceAddrPersistenceProfile w.d.Id
        (client.ModifySourceAddrPersistenceProfile w.d.Id pp w.dev).2 with ⟨⟨p, err⟩, s⟩
      cases err with
      | some e2 =>
        rw [srcRead_err client _ p e2 s hg]
        exact ⟨rfl, pp, Or.inr (by simp [ResourceData.Id])⟩
      | none =>
        cases p with
        | none =>
          rw [srcRead_nil client _ s hg] at h
          simp at h
        | some p1 =>
          rw [srcRead_ok client _ p1 s hg] at h
          simp at h

/-- C1: for both resources, for every store and every client, if the update
step that `Create` runs (after the create call and `d.SetId(name)`) returns an
error `e`, then `Create` returns exactly `e` whatever the delete call returns,
and its last client call is `Delete…PersistenceProfile(name)` with the
configured name: the calls of `Create` are the create call, the modify call,
possibly the get call of the update, and that one delete call. -/
theorem create_rolls_back_on_update_error (client : BigIP σ) (w : World σ) :
    (∀ (name parent : String) (e : GoError),
      w.d.Get "name" = Value.str name →
      w.d.Get "defaults_from" = Value.str parent →
      (resourceBigipLtmPersistenceProfileDstAddrUpdate client
          (dstAddrCreated client w name parent)).1 = Except.ok (some e) →
      (resourceBigipLtmPersistenceProfileDstAddrCreate client w).1 = Except.ok (some e) ∧
      (resourceBigipLtmPersistenceProfileDstAddrCreate client w).2.calls =
        (resourceBigipLtmPersistenceProfileDstAddrUpdate client
          (dstAddrCreated client w name parent)).2.calls ++
          [Call.DeleteDestAddrPersistenceProfile name] ∧
      (resourceBigipLtmPersistenceProfileDstAddrCreate client w).2.dev =
        (client.DeleteDestAddrPersistenceProfile name
          (resourceBigipLtmPersistenceProfileDstAddrUpdate client
          (dstAddrCreated client w name parent)).2.dev).2 ∧
      (resourceBigipLtmPersistenceProfileDstAddrCreate client w).2.d = w.d.SetId name ∧
      ∃ pp : DestAddrPersistenceProfile,
        (resourceBigipLtmPersistenceProfileDstAddrCreate client w).2.calls =
          w.calls ++ [Call.CreateDestAddrPersistenceProfile name parent,
            Call.ModifyDestAddrPersistenceProfile name pp,
            Call.DeleteDestAddrPersistenceProfile name] ∨
        (resourceBigipLtmPersistenceProfileDstAddrCreate client w).2.calls =
          w.calls ++ [Call.CreateDestAddrPersistenceProfile name parent,
            Call.ModifyDestAddrPersistenceProfile name pp,
            Call.GetDestAddrPersistenceProfile name,
            Call.DeleteDestAddrPersistenceProfile name]) ∧
    (∀ (name parent : String) (e : GoError),
      w.d.Get "name" = Value.str name →
      w.d.Get "defaults_from" = Value.str parent →
      (resourceBigipLtmPersistenceProfileSrcAddrUpdate client
          (srcAddrCreated client w name parent)).1 = Except.ok (some e) →
      (resourceBigipLtmPersistenceProfileSrcAddrCreate client w).1 = Except.ok (some e) ∧
      (resourceBigipLtmPersistenceProfileSrcAddrCreate client w).2.calls =
        (resourceBigipLtmPersistenceProfileSrcAddrUpdate client
          (srcAddrCreated client w name parent)).2.calls ++
          [Call.DeleteSourceAddrPersistenceProfile name] ∧
      (resourceBigipLtmPersistenceProfileSrcAddrCreate client w).2.dev =
        (client.DeleteSourceAddrPersistenceProfile name
          (resourceBigipLtmPersistenceProfileSrcAddrUpdate client
          (srcAddrCreated client w name parent)).2.dev).2 ∧
      (resourceBigipLtmPersistenceProfileSrcAddrCreate client w).2.d = w.d.SetId name ∧
      ∃ pp : SourceAddrPersistenceProfile,
        (resourceBigipLtmPersistenceProfileSrcAddrCreate client w).2.calls =
          w.calls ++ [Call.CreateSourceAddrPersistenceProfile name parent,
            Call.ModifySourceAddrPersistenceProfile name pp,
            Call.DeleteSourceAddrPersistenceProfile name] ∨
        (resourceBigipLtmPersistenceProfileSrcAddrCreate client w).2.calls =
          w.calls ++ [Call.CreateSourceAddrPersistenceProfile name parent,
            Call.ModifySourceAddrPersistenceProfile name pp,
            Call.GetSourceAddrPersistenceProfile name,
            Call.DeleteSourceAddrPersistenceProfile name]) := by
  refine ⟨?_, ?_⟩
  · intro name parent e hname hparent hupd
    obtain ⟨hd, pp, hcalls⟩ := dstUpdate_err client (dstAddrCreated client w name parent) e hupd
    rw [dstCreate_run client w name parent hname hparent]
    rcases hU : resourceBigipLtmPersistenceProfileDstAddrUpdate client
      (dstAddrCreated client w name parent) with ⟨r, w2⟩
    rw [hU] at hupd hd hcalls
    simp only at hupd hd hcalls
    subst hupd
    refine ⟨rfl, rfl, rfl, hd, pp, ?_⟩
    simp only [dstAddrCreated, ResourceData.SetId, ResourceData.Id] at hcalls
    rcases hcalls with hc | hc
    · left
      simp [hc]
    · right
      simp [hc]
  · intro name parent e hname hparent hupd
    obtain ⟨hd, pp, hcalls⟩ := srcUpdate_err client (srcAddrCreated client w name parent) e hupd
    rw [srcCreate_run client w name parent hname hparent]
    rcases hU : resourceBigipLtmPersistenceProfileSrcAddrUpdate client
      (srcAddrCreated client w name parent) with ⟨r, w2⟩
    rw [hU] at hupd hd hcalls
    simp only at hupd hd hcalls
    subst hupd
    refine ⟨rfl, rfl, rfl, hd, pp, ?_⟩
    simp only [srcAddrCreated, ResourceData.SetId, ResourceData.Id] at hcalls
    rcases hcalls with hc | hc
    · left
      simp [hc]
    · right
      simp [hc]

/-- Witness of C1 on a device whose modify (and delete) fails and on one whose
get fails. -/
theorem create_rolls_back_on_update_error_witness :
    ((resourceBigipLtmPersistenceProfileDstAddrCreate modifyFailsDevice (sampleWorld ())).1 =
        Except.ok (some ⟨"modify failed"⟩) ∧
      (resourceBigipLtmPersistenceProfileDstAddrCreate getFailsDevice (sampleWorld ())).1 =
        Except.ok (some ⟨"get failed"⟩) ∧
      (resourceBigipLtmPersistenceProfileDstAddrCreate getFailsDevice (sampleWorld ())).2.calls =
        [Call.CreateDestAddrPersistenceProfile "/Common/p1" "/Common/parent",
          Call.ModifyDestAddrPersistenceProfile "/Common/p1"
            { AppService := "", DefaultsFrom := "/Common/parent", MatchAcrossPools := "",
              MatchAcrossServices := "", MatchAcrossVirtuals := "", Mirror := "enabled",
              OverrideConnectionLimit := "", Timeout := "-7", HashAlgorithm := "default",
              Mask := "" },
          Call.GetDestAddrPersistenceProfile "/Common/p1",
          Call.DeleteDestAddrPersistenceProfile "/Common/p1"]) ∧
    ((resourceBigipLtmPersistenceProfileSrcAddrCreate modifyFailsDevice (sampleWorld ())).1 =
        Except.ok (some ⟨"modify failed"⟩) ∧
      (resourceBigipLtmPersistenceProfileSrcAddrCreate getFailsDevice (sampleWorld ())).1 =
        Except.ok (some ⟨"get failed"⟩) ∧
      (resourceBigipLtmPersistenceProfileSrcAddrCreate getFailsDevice (sampleWorld ())).2.calls =
        [Call.CreateSourceAddrPersistenceProfile "/Common/p1" "/Common/parent",
          Call.ModifySourceAddrPersistenceProfile "/Common/p1"
            { AppService := "", DefaultsFrom := "/Common/parent", MatchAcrossPools := "",
              MatchAcrossServices := "", MatchAcrossVirtuals := "", Mirror := "enabled",
              OverrideConnectionLimit := "", Timeout := "-7", HashAlgorithm := "default",
              MapProxies := "", Mask := "" },
          Call.GetSourceAddrPersistenceProfile "/Common/p1",
          Call.DeleteSourceAddrPersistenceProfile "/Common/p1"]) := by
  have m := create_rolls_back_on_update_error modifyFailsDevice (sampleWorld ())
  have g := create_rolls_back_on_update_error getFailsDevice (sampleWorld ())
  exact
    ⟨⟨(m.1 "/Common/p1" "/Common/parent" ⟨"modify failed"⟩ rfl rfl rfl).1,
      (g.1 "/Common/p1" "/Common/parent" ⟨"get failed"⟩ rfl rfl rfl).1,
      (g.1 "/Common/p1" "/Common/parent" ⟨"get failed"⟩ rfl rfl rfl).2.1⟩,
     ⟨(m.2 "/Common/p1" "/Common/parent" ⟨"modify failed"⟩ rfl rfl rfl).1,
      (g.2 "/Common/p1" "/Common/parent" ⟨"get failed"⟩ rfl rfl rfl).1,
      (g.2 "/Common/p1" "/Common/parent" ⟨"get failed"⟩ rfl rfl rfl).2.1⟩⟩

/-! ## Delete and Exists -/

theorem dstDelete_run (client : BigIP σ) (w : World σ) :
    resourceBigipLtmPersistenceProfileDstAddrDelete client w =
      (Except.ok (client.DeleteDestAddrPersistenceProfile w.d.Id w.dev).1,
        { w with
          dev := (client.DeleteDestAddrPersistenceProfile w.d.Id w.dev).2
          calls := w.calls ++ [Call.DeleteDestAddrPersistenceProfile w.d.Id]
          log := w.log ++
            ["[INFO] Deleting Destination Address Persistence Profile " ++ w.d.Id] }) := by
  simp only [resourceBigipLtmPersistenceProfileDstAddrDelete, Op.bind_run, Op.andThen, Op.dId,
    Op.logPrintln, Op.call]

theorem dstExists_run (client : BigIP σ) (w : World σ)
    (pp : Option DestAddrPersistenceProfile) (err : Option GoError) (s : σ)
    (h : client.GetDestAddrPersistenceProfile w.d.Id w.dev = ((pp, err), s)) :
    resourceBigipLtmPersistenceProfileDstAddrExists client w =
      match err, pp with
      | some e, _ =>
        (Except.ok (false, some e),
          { w with
            dev := s
            calls := w.calls ++ [Call.GetDestAddrPersistenceProfile w.d.Id]
            log := w.log ++
              ["[INFO] Fetching Destination Address Persistence Profile " ++ w.d.Id] })
      | none, some _ =>
        (Except.ok (true, none),
          { w with
            dev := s
            calls := w.calls ++ [Call.GetDestAddrPersistenceProfile w.d.Id]
            log := w.log ++
              ["[INFO] Fetching Destination Address Persistence Profile " ++ w.d.Id] })
      | none, none =>
        (Except.ok (false, none),
          { w with
            d := w.d.SetId ""
            dev := s
            calls := w.calls ++ [Call.GetDestAddrPersistenceProfile w.d.Id]
            log := w.log ++
              ["[INFO] Fetching Destination Address Persistence Profile " ++ w.d.Id] }) := by
  cases err <;> cases pp <;>
    simp [resourceBigipLtmPersistenceProfileDstAddrExists, Op.andThen, Op.dId, Op.logPrintln,
      Op.call, Op.dSetId, h]

theorem srcDelete_run (client : BigIP σ) (w : World σ) :
    resourceBigipLtmPersistenceProfileSrcAddrDelete client w =
      (Except.ok (client.DeleteSourceAddrPersistenceProfile w.d.Id w.dev).1,
        { w with
          dev := (client.DeleteSourceAddrPersistenceProfile w.d.Id w.dev).2
          calls := w.calls ++ [Call.DeleteSourceAddrPersistenceProfile w.d.Id]
          log := w.log ++
            ["[INFO] Deleting Source Address Persistence Profile " ++ w.d.Id] }) := by
  simp only [resourceBigipLtmPersistenceProfileSrcAddrDelete, Op.bind_run, Op.andThen, Op.dId,
    Op.logPrintln, Op.call]

theorem srcExists_run (client : BigIP σ) (w : World σ)
    (pp : Option SourceAddrPersistenceProfile) (err : Option GoError) (s : σ)
    (h : client.GetSourceAddrPersistenceProfile w.d.Id w.dev = ((pp, err), s)) :
    resourceBigipLtmPersistenceProfileSrcAddrExists client w =
      match err, pp with
      | some e, _ =>
        (Except.ok (false, some e),
          { w with
            dev := s
            calls := w.calls ++ [Call.GetSourceAddrPersistenceProfile w.d.Id]
            log := w.log ++
              ["[INFO] Fetching Source Address Persistence Profile " ++ w.d.Id] })
      | none, some _ =>
        (Except.ok (true, none),
          { w with
            dev := s
            calls := w.calls ++ [Call.GetSourceAddrPersistenceProfile w.d.Id]
            log := w.log ++
              ["[INFO] Fetching Source Address Persistence Profile " ++ w.d.Id] })
      | none, none =>
        (Except.ok (false, none),
          { w with
            d := w.d.SetId ""
            dev := s
            calls := w.calls ++ [Call.GetSourceAddrPersistenceProfile w.d.Id]
            log := w.log ++
              ["[INFO] Fetching Source Address Persistence Profile " ++ w.d.Id] }) := by
  cases err <;> cases pp <;>
    simp [resourceBigipLtmPersistenceProfileSrcAddrExists, Op.andThen, Op.dId, Op.logPrintln,
      Op.call, Op.dSetId, h]

/-- C3: for both resources, when the first client call of `Read`, `Update`,
`Delete` or `Exists` returns an error `e`, the operation returns exactly `e`
(`Exists` returns `(false, e)`), has made that one client call only, and leaves
the store and the resource ID as they were; and `Delete` always calls the
client's delete with the resource ID and returns that call's result. -/
theorem error_passthrough (client : BigIP σ) (w : World σ) :
    ((∀ (pp : Option DestAddrPersistenceProfile) (e : GoError) (s : σ),
      client.GetDestAddrPersistenceProfile w.d.Id w.dev = ((pp, some e), s) →
      (resourceBigipLtmPersistenceProfileDstAddrRead client w).1 =
        Except.ok (some e) ∧
      (resourceBigipLtmPersistenceProfileDstAddrRead client w).2.d = w.d ∧
      (resourceBigipLtmPersistenceProfileDstAddrRead client w).2.calls =
        w.calls ++ [Call.GetDestAddrPersistenceProfile w.d.Id] ∧
      (resourceBigipLtmPersistenceProfileDstAddrRead client w).2.dev =
        s) ∧
    (∀ (pp : DestAddrPersistenceProfile) (e : GoError) (s : σ),
      (buildDestAddrPersistenceProfile w).1 = Except.ok pp →
      client.ModifyDestAddrPersistenceProfile w.d.Id pp w.dev = (some e, s) →
      (resourceBigipLtmPersistenceProfileDstAddrUpdate client w).1 =
        Except.ok (some e) ∧
      (resourceBigipLtmPersistenceProfileDstAddrUpdate client w).2.d = w.d ∧
      (resourceBigipLtmPersistenceProfileDstAddrUpdate client w).2.calls =
        w.calls ++ [Call.ModifyDestAddrPersistenceProfile w.d.Id pp] ∧
      (resourceBigipLtmPersistenceProfileDstAddrUpdate client w).2.dev =
        s) ∧
    (∀ (e : GoError) (s : σ),
      client.DeleteDestAddrPersistenceProfile w.d.Id w.dev = (some e, s) →
      (resourceBigipLtmPersistenceProfileDstAddrDelete client w).1 =
        Except.ok (some e) ∧
      (resourceBigipLtmPersistenceProfileDstAddrDelete client w).2.d = w.d ∧
      (resourceBigipLtmPersistenceProfileDstAddrDelete client w).2.calls =
        w.calls ++ [Call.DeleteDestAddrPersistenceProfile w.d.Id] ∧
      (resourceBigipLtmPersistenceProfileDstAddrDelete client w).2.dev =
        s) ∧
    (∀ (pp : Option DestAddrPersistenceProfile) (e : GoError) (s : σ),
      client.GetDestAddrPersistenceProfile w.d.Id w.dev = ((pp, some e), s) →
      (resourceBigipLtmPersistenceProfileDstAddrExists client w).1 =
        Except.ok (false, some e) ∧
      (resourceBigipLtmPersistenceProfileDstAddrExists client w).2.d = w.d ∧
      (resourceBigipLtmPersistenceProfileDstAddrExists client w).2.calls =
        w.calls ++ [Call.GetDestAddrPersistenceProfile w.d.Id] ∧
      (resourceBigipLtmPersistenceProfileDstAddrExists client w).2.dev =
        s) ∧
    (resourceBigipLtmPersistenceProfileDstAddrDelete client w).1 =
      Except.ok (client.DeleteDestAddrPersistenceProfile w.d.Id w.dev).1 ∧
    (resourceBigipLtmPersistenceProfileDstAddrDelete client w).2.d = w.d ∧
    (resourceBigipLtmPersistenceProfileDstAddrDelete client w).2.calls =
      w.calls ++ [Call.DeleteDestAddrPersistenceProfile w.d.Id] ∧
    (resourceBigipLtmPersistenceProfileDstAddrDelete client w).2.dev =
      (client.DeleteDestAddrPersistenceProfile w.d.Id w.dev).2) ∧
    ((∀ (pp : Option SourceAddrPersistenceProfile) (e : GoError) (s : σ),
      client.GetSourceAddrPersistenceProfile w.d.Id w.dev = ((pp, some e), s) →
      (resourceBigipLtmPersistenceProfileSrcAddrRead client w).1 =
        Except.ok (some e) ∧
      (resourceBigipLtmPersistenceProfileSrcAddrRead client w).2.d = w.d ∧
      (resourceBigipLtmPersistenceProfileSrcAddrRead client w).2.calls =
        w.calls ++ [Call.GetSourceAddrPersistenceProfile w.d.Id] ∧
      (resourceBigipLtmPersistenceProfileSrcAddrRead client w).2.dev =
        s) ∧
    (∀ (pp : SourceAddrPersistenceProfile) (e : GoError) (s : σ),
      (buildSourceAddrPersistenceProfile w).1 = Except.ok pp →
      client.ModifySourceAddrPersistenceProfile w.d.Id pp w.dev = (some e, s) →
      (resourceBigipLtmPersistenceProfileSrcAddrUpdate client w).1 =
        Except.ok (some e) ∧
      (resourceBigipLtmPersistenceProfileSrcAddrUpdate client w).2.d = w.d ∧
      (resourceBigipLtmPersistenceProfileSrcAddrUpdate client w).2.calls =
        w.calls ++ [Call.ModifySourceAddrPersistenceProfile w.d.Id pp] ∧
      (resourceBigipLtmPersistenceProfileSrcAddrUpdate client w).2.dev =
        s) ∧
    (∀ (e : GoError) (s : σ),
      client.DeleteSourceAddrPersistenceProfile w.d.Id w.dev = (some e, s) →
      (resourceBigipLtmPersistenceProfileSrcAddrDelete client w).1 =
        Except.ok (some e) ∧
      (resourceBigipLtmPersistenceProfileSrcAddrDelete client w).2.d = w.d ∧
      (resourceBigipLtmPersistenceProfileSrcAddrDelete client w).2.calls =
        w.calls ++ [Call.DeleteSourceAddrPersistenceProfile w.d.Id] ∧
      (resourceBigipLtmPersistenceProfileSrcAddrDelete client w).2.dev =
        s) ∧
    (∀ (pp : Option SourceAddrPersistenceProfile) (e : GoError) (s : σ),
      client.GetSourceAddrPersistenceProfile w.d.Id w.dev = ((pp, some e), s) →
      (resourceBigipLtmPersistenceProfileSrcAddrExists client w).1 =
        Except.ok (false, some e) ∧
      (resourceBigipLtmPersistenceProfileSrcAddrExists client w).2.d = w.d ∧
      (resourceBigipLtmPersistenceProfileSrcAddrExists client w).2.calls =
        w.calls ++ [Call.GetSourceAddrPersistenceProfile w.d.Id] ∧
      (resourceBigipLtmPersistenceProfileSrcAddrExists client w).2.dev =
        s) ∧
    (resourceBigipLtmPersistenceProfileSrcAddrDelete client w).1 =
      Except.ok (client.DeleteSourceAddrPersistenceProfile w.d.Id w.dev).1 ∧
    (resourceBigipLtmPersistenceProfileSrcAddrDelete client w).2.d = w.d ∧
    (resourceBigipLtmPersistenceProfileSrcAddrDelete client w).2.calls =
      w.calls ++ [Call.DeleteSourceAddrPersistenceProfile w.d.Id] ∧
    (resourceBigipLtmPersistenceProfileSrcAddrDelete client w).2.dev =
      (client.DeleteSourceAddrPersistenceProfile w.d.Id w.dev).2) := by
  refine ⟨?_, ?_⟩
  · refine ⟨?_, ?_, ?_, ?_, ?_⟩
    · intro pp e s h
      rw [dstRead_err client w pp e s h]
      exact ⟨rfl, rfl, rfl, rfl⟩
    · intro pp e s hb hm
      rw [dstUpdate_run client w pp hb, hm]
      exact ⟨rfl, rfl, rfl, rfl⟩
    · intro e s h
      rw [dstDelete_run client w, h]
      exact ⟨rfl, rfl, rfl, rfl⟩
    · intro pp e s h
      rw [dstExists_run client w pp (some e) s h]
      exact ⟨rfl, rfl, rfl, rfl⟩
    · rw [dstDelete_run client w]
      exact ⟨rfl, rfl, rfl, rfl⟩
  · refine ⟨?_, ?_, ?_, ?_, ?_⟩
    · intro pp e s h
      rw [srcRead_err client w pp e s h]
      exact ⟨rfl, rfl, rfl, rfl⟩
    · intro pp e s hb hm
      rw [srcUpdate_run client w pp hb, hm]
      exact ⟨rfl, rfl, rfl, rfl⟩
    · intro e s h
      rw [srcDelete_run client w, h]
      exact ⟨rfl, rfl, rfl, rfl⟩
    · intro pp e s h
      rw [srcExists_run client w pp (some e) s h]
      exact ⟨rfl, rfl, rfl, rfl⟩
    · rw [srcDelete_run client w]
      exact ⟨rfl, rfl, rfl, rfl⟩

/-- Witness of C3 on devices whose get, modify and delete calls fail. -/
theorem error_passthrough_witness :
    ((resourceBigipLtmPersistenceProfileDstAddrRead getFailsDevice (sampleWorld ())).1 =
        Except.ok (some ⟨"get failed"⟩) ∧
      (resourceBigipLtmPersistenceProfileDstAddrUpdate modifyFailsDevice (sampleWorld ())).1 =
        Except.ok (some ⟨"modify failed"⟩) ∧
      (resourceBigipLtmPersistenceProfileDstAddrDelete modifyFailsDevice (sampleWorld ())).1 =
        Except.ok (some ⟨"delete failed"⟩) ∧
      (resourceBigipLtmPersistenceProfileDstAddrExists getFailsDevice (sampleWorld ())).1 =
        Except.ok (false, some ⟨"get failed"⟩) ∧
      (resourceBigipLtmPersistenceProfileDstAddrExists getFailsDevice (sampleWorld ())).2.d =
        sampleData) ∧
    ((resourceBigipLtmPersistenceProfileSrcAddrRead getFailsDevice (sampleWorld ())).1 =
        Except.ok (some ⟨"get failed"⟩) ∧
      (resourceBigipLtmPersistenceProfileSrcAddrUpdate modifyFailsDevice (sampleWorld ())).1 =
        Except.ok (some ⟨"modify failed"⟩) ∧
      (resourceBigipLtmPersistenceProfileSrcAddrDelete modifyFailsDevice (sampleWorld ())).1 =
        Except.ok (some ⟨"delete failed"⟩) ∧
      (resourceBigipLtmPersistenceProfileSrcAddrExists getFailsDevice (sampleWorld ())).1 =
        Except.ok (false, some ⟨"get failed"⟩) ∧
      (resourceBigipLtmPersistenceProfileSrcAddrExists getFailsDevice (sampleWorld ())).2.d =
        sampleData) := by
  have g := error_passthrough getFailsDevice (sampleWorld ())
  have m := error_passthrough modifyFailsDevice (sampleWorld ())
  exact
    ⟨⟨(g.1.1 none ⟨"get failed"⟩ () rfl).1,
      (m.1.2.1 _ ⟨"modify failed"⟩ () rfl rfl).1,
      (m.1.2.2.1 ⟨"delete failed"⟩ () rfl).1,
      (g.1.2.2.2.1 none ⟨"get failed"⟩ () rfl).1,
      (g.1.2.2.2.1 none ⟨"get failed"⟩ () rfl).2.1⟩,
     ⟨(g.2.1 none ⟨"get failed"⟩ () rfl).1,
      (m.2.2.1 _ ⟨"modify failed"⟩ () rfl rfl).1,
      (m.2.2.2.1 ⟨"delete failed"⟩ () rfl).1,
      (g.2.2.2.2.1 none ⟨"get failed"⟩ () rfl).1,
      (g.2.2.2.2.1 none ⟨"get failed"⟩ () rfl).2.1⟩⟩

/-- C4: for both resources, when the create call, the modify call and the two
get calls succeed and the gets return non-nil profiles, `Create` returns nil
and its client calls are, in order, Create(name, defaults_from),
Modify(name, pp), Get(name), Get(name), where every field of `pp` is the
attribute of the store it is built from and `pp.Timeout` is `Itoa` of the
`timeout` attribute; there is no delete call; the resource ID is the
configured name when the update step starts and when `Create` returns. -/
theorem create_call_sequence (client : BigIP σ) (w : World σ) :
    (∀ (name parent a mp ms mv mi oc ha mk : String) (n : Int)
        (pp p1 p2 : DestAddrPersistenceProfile) (s1 s2 s3 s4 : σ),
      w.d.Get "name" = Value.str name →
      w.d.Get "defaults_from" = Value.str parent →
      w.d.Get "app_service" = Value.str a →
      w.d.Get "match_across_pools" = Value.str mp →
      w.d.Get "match_across_services" = Value.str ms →
      w.d.Get "match_across_virtuals" = Value.str mv →
      w.d.Get "mirror" = Value.str mi →
      w.d.Get "override_conn_limit" = Value.str oc →
      w.d.Get "timeout" = Value.int n →
      w.d.Get "hash_algorithm" = Value.str ha →
      w.d.Get "mask" = Value.str mk →
      pp =
        { AppService := a, DefaultsFrom := parent, MatchAcrossPools := mp,
          MatchAcrossServices := ms, MatchAcrossVirtuals := mv, Mirror := mi,
          OverrideConnectionLimit := oc, Timeout := Itoa n, HashAlgorithm := ha,
          Mask := mk } →
      client.CreateDestAddrPersistenceProfile name parent w.dev = (none, s1) →
      client.ModifyDestAddrPersistenceProfile name pp s1 = (none, s2) →
      client.GetDestAddrPersistenceProfile name s2 = ((some p1, none), s3) →
      client.GetDestAddrPersistenceProfile name s3 = ((some p2, none), s4) →
      (resourceBigipLtmPersistenceProfileDstAddrCreate client w).1 = Except.ok none ∧
      (resourceBigipLtmPersistenceProfileDstAddrCreate client w).2.calls =
        w.calls ++ [Call.CreateDestAddrPersistenceProfile name parent,
          Call.ModifyDestAddrPersistenceProfile name pp,
          Call.GetDestAddrPersistenceProfile name,
          Call.GetDestAddrPersistenceProfile name] ∧
      (resourceBigipLtmPersistenceProfileDstAddrCreate client w).2.dev = s4 ∧
      (resourceBigipLtmPersistenceProfileDstAddrCreate client w).2.d.Id = name ∧
      (dstAddrCreated client w name parent).d.Id = name ∧
      resourceBigipLtmPersistenceProfileDstAddrCreate client w =
        resourceBigipLtmPersistenceProfileDstAddrRead client
          (resourceBigipLtmPersistenceProfileDstAddrUpdate client
            (dstAddrCreated client w name parent)).2) ∧
    (∀ (name parent a mp ms mv mi oc ha mx mk : String) (n : Int)
        (pp p1 p2 : SourceAddrPersistenceProfile) (s1 s2 s3 s4 : σ),
      w.d.Get "name" = Value.str name →
      w.d.Get "defaults_from" = Value.str parent →
      w.d.Get "app_service" = Value.str a →
      w.d.Get "match_across_pools" = Value.str mp →
      w.d.Get "match_across_services" = Value.str ms →
      w.d.Get "match_across_virtuals" = Value.str mv →
      w.d.Get "mirror" = Value.str mi →
      w.d.Get "override_conn_limit" = Value.str oc →
      w.d.Get "timeout" = Value.int n →
      w.d.Get "hash_algorithm" = Value.str ha →
      w.d.Get "map_proxies" = Value.str mx →
      w.d.Get "mask" = Value.str mk →
      pp =
        { AppService := a, DefaultsFrom := parent, MatchAcrossPools := mp,
          MatchAcrossServices := ms, MatchAcrossVirtuals := mv, Mirror := mi,
          OverrideConnectionLimit := oc, Timeout := Itoa n, HashAlgorithm := ha,
          MapProxies := mx, Mask := mk } →
      client.CreateSourceAddrPersistenceProfile name parent w.dev = (none, s1) →
      client.ModifySourceAddrPersistenceProfile name pp s1 = (none, s2) →
      client.GetSourceAddrPersistenceProfile name s2 = ((some p1, none), s3) →
      client.GetSourceAddrPersistenceProfile name s3 = ((some p2, none), s4) →
      (resourceBigipLtmPersistenceProfileSrcAddrCreate client w).1 = Except.ok none ∧
      (resourceBigipLtmPersistenceProfileSrcAddrCreate client w).2.calls =
        w.calls ++ [Call.CreateSourceAddrPersistenceProfile name parent,
          Call.ModifySourceAddrPersistenceProfile name pp,
          Call.GetSourceAddrPersistenceProfile name,
          Call.GetSourceAddrPersistenceProfile name] ∧
      (resourceBigipLtmPersistenceProfileSrcAddrCreate client w).2.dev = s4 ∧
      (resourceBigipLtmPersistenceProfileSrcAddrCreate client w).2.d.Id = name ∧
      (srcAddrCreated client w name parent).d.Id = name ∧
      resourceBigipLtmPersistenceProfileSrcAddrCreate client w =
        resourceBigipLtmPersistenceProfileSrcAddrRead client
          (resourceBigipLtmPersistenceProfileSrcAddrUpdate client
            (srcAddrCreated client w name parent)).2) := by
  refine ⟨?_, ?_⟩
  · intro name parent a mp ms mv mi oc ha mk n pp p1 p2 s1 s2 s3 s4 hname hparent ha1 hmp
      hms hmv hmi hoc hn hha hmk hpp h1 h2 h3 h4
    have hb : (buildDestAddrPersistenceProfile w).1 = Except.ok pp := by
      rw [hpp]
      unfold buildDestAddrPersistenceProfile
      simp only [Op.getString_run, Op.getInt_run, Op.pure_run, ha1, hparent, hmp, hms, hmv, hmi,
        hoc, hn, hha, hmk]
    have hb1 : (buildDestAddrPersistenceProfile (dstAddrCreated client w name parent)).1 =
        Except.ok pp := (buildDest_congr w (dstAddrCreated client w name parent) rfl).trans hb
    obtain ⟨w1, hU, hc1, hd1, hi1⟩ : ∃ w1 : World σ,
        resourceBigipLtmPersistenceProfileDstAddrUpdate client
          (dstAddrCreated client w name parent) = (Except.ok none, w1) ∧
        w1.calls = w.calls ++ [Call.CreateDestAddrPersistenceProfile name parent,
          Call.ModifyDestAddrPersistenceProfile name pp,
          Call.GetDestAddrPersistenceProfile name] ∧
        w1.dev = s3 ∧ w1.d.Id = name := by
      rw [dstUpdate_run client _ pp hb1]
      simp only [dstAddrCreated, ResourceData.SetId, ResourceData.Id, h1, h2]
      rw [dstRead_ok client _ p1 s3 (by simpa [ResourceData.Id] using h3)]
      exact ⟨_, rfl, by simp [ResourceData.Id], rfl, rfl⟩
    have hC : resourceBigipLtmPersistenceProfileDstAddrCreate client w =
        resourceBigipLtmPersistenceProfileDstAddrRead client w1 := by
      rw [dstCreate_run client w name parent hname hparent, hU]
    have hR := dstRead_ok client w1 p2 s4 (by rw [hd1, hi1]; exact h4)
    refine ⟨?_, ?_, ?_, ?_, rfl, ?_⟩
    · rw [hC, hR]
    · rw [hC, hR]
      show w1.calls ++ [Call.GetDestAddrPersistenceProfile w1.d.Id] = _
      rw [hc1, hi1]
      simp
    · rw [hC, hR]
    · rw [hC, hR]
      exact hi1
    · rw [hC, hU]
  · intro name parent a mp ms mv mi oc ha mx mk n pp p1 p2 s1 s2 s3 s4 hname hparent ha1 hmp
      hms hmv hmi hoc hn hha hmx hmk hpp h1 h2 h3 h4
    have hb : (buildSourceAddrPersistenceProfile w).1 = Except.ok pp := by
      rw [hpp]
      unfold buildSourceAddrPersistenceProfile
      simp only [Op.getString_run, Op.getInt_run, Op.pure_run, ha1, hparent, hmp, hms, hmv, hmi,
        hoc, hn, hha, hmx, hmk]
    have hb1 : (buildSourceAddrPersistenceProfile (srcAddrCreated client w name parent)).1 =
        Except.ok pp := (buildSource_congr w (srcAddrCreated client w name parent) rfl).trans hb
    obtain ⟨w1, hU, hc1, hd1, hi1⟩ : ∃ w1 : World σ,
        resourceBigipLtmPersistenceProfileSrcAddrUpdate client
          (srcAddrCreated client w name parent) = (Except.ok none, w1) ∧
        w1.calls = w.calls ++ [Call.CreateSourceAddrPersistenceProfile name parent,
          Call.ModifySourceAddrPersistenceProfile name pp,
          Call.GetSourceAddrPersistenceProfile name] ∧
        w1.dev = s3 ∧ w1.d.Id = name := by
      rw [srcUpdate_run client _ pp hb1]
      simp only [srcAddrCreated, ResourceData.SetId, ResourceData.Id, h1, h2]
      rw [srcRead_ok client _ p1 s3 (by simpa [ResourceData.Id] using h3)]
      exact ⟨_, rfl, by simp [ResourceData.Id], rfl, rfl⟩
    have hC : resourceBigipLtmPersistenceProfileSrcAddrCreate client w =
        resourceBigipLtmPersistenceProfileSrcAddrRead client w1 := by
      rw [srcCreate_run client w name parent hname hparent, hU]
    have hR := srcRead_ok client w1 p2 s4 (by rw [hd1, hi1]; exact h4)
    refine ⟨?_, ?_, ?_, ?_, rfl, ?_⟩
    · rw [hC, hR]
    · rw [hC, hR]
      show w1.calls ++ [Call.GetSourceAddrPersistenceProfile w1.d.Id] = _
      rw [hc1, hi1]
      simp
    · rw [hC, hR]
    · rw [hC, hR]
      exact hi1
    · rw [hC, hU]

/-- Witness of C4 on a device on which every call succeeds. -/
theorem create_call_sequence_witness :
    ((resourceBigipLtmPersistenceProfileDstAddrCreate healthyDevice (sampleWorld ())).1 =
        Except.ok none ∧
      (resourceBigipLtmPersistenceProfileDstAddrCreate healthyDevice (sampleWorld ())).2.calls =
        [Call.CreateDestAddrPersistenceProfile "/Common/p1" "/Common/parent",
          Call.ModifyDestAddrPersistenceProfile "/Common/p1"
            { AppService := "", DefaultsFrom := "/Common/parent", MatchAcrossPools := "",
              MatchAcrossServices := "", MatchAcrossVirtuals := "", Mirror := "enabled",
              OverrideConnectionLimit := "", Timeout := Itoa (-7), HashAlgorithm := "default",
              Mask := "" },
          Call.GetDestAddrPersistenceProfile "/Common/p1",
          Call.GetDestAddrPersistenceProfile "/Common/p1"] ∧
      (resourceBigipLtmPersistenceProfileDstAddrCreate healthyDevice (sampleWorld ())).2.d.Id =
        "/Common/p1") ∧
    ((resourceBigipLtmPersistenceProfileSrcAddrCreate healthyDevice (sampleWorld ())).1 =
        Except.ok none ∧
      (resourceBigipLtmPersistenceProfileSrcAddrCreate healthyDevice (sampleWorld ())).2.calls =
        [Call.CreateSourceAddrPersistenceProfile "/Common/p1" "/Common/parent",
          Call.ModifySourceAddrPersistenceProfile "/Common/p1"
            { AppService := "", DefaultsFrom := "/Common/parent", MatchAcrossPools := "",
              MatchAcrossServices := "", MatchAcrossVirtuals := "", Mirror := "enabled",
              OverrideConnectionLimit := "", Timeout := Itoa (-7), HashAlgorithm := "default",
              MapProxies := "", Mask := "" },
          Call.GetSourceAddrPersistenceProfile "/Common/p1",
          Call.GetSourceAddrPersistenceProfile "/Common/p1"] ∧
      (resourceBigipLtmPersistenceProfileSrcAddrCreate healthyDevice (sampleWorld ())).2.d.Id =
        "/Common/p1") := by
  have h := create_call_sequence healthyDevice (sampleWorld ())
  exact
    ⟨⟨(h.1 "/Common/p1" "/Common/parent" "" "" "" "" "enabled" "" "default" "" (-7) _
        sampleDestProfile sampleDestProfile () () () ()
        rfl rfl rfl rfl rfl rfl rfl rfl rfl rfl rfl rfl rfl rfl rfl rfl).1,
      (h.1 "/Common/p1" "/Common/parent" "" "" "" "" "enabled" "" "default" "" (-7) _
        sampleDestProfile sampleDestProfile () () () ()
        rfl rfl rfl rfl rfl rfl rfl rfl rfl rfl rfl rfl rfl rfl rfl rfl).2.1,
      (h.1 "/Common/p1" "/Common/parent" "" "" "" "" "enabled" "" "default" "" (-7) _
        sampleDestProfile sampleDestProfile () () () ()
        rfl rfl rfl rfl rfl rfl rfl rfl rfl rfl rfl rfl rfl rfl rfl rfl).2.2.2.1⟩,
     ⟨(h.2 "/Common/p1" "/Common/parent" "" "" "" "" "enabled" "" "default" "" "" (-7) _
        sampleSourceProfile sampleSourceProfile () () () ()
        rfl rfl rfl rfl rfl rfl rfl rfl rfl rfl rfl rfl rfl rfl rfl rfl rfl).1,
      (h.2 "/Common/p1" "/Common/parent" "" "" "" "" "enabled" "" "default" "" "" (-7) _
        sampleSourceProfile sampleSourceProfile () () () ()
        rfl rfl rfl rfl rfl rfl rfl rfl rfl rfl rfl rfl rfl rfl rfl rfl rfl).2.1,
      (h.2 "/Common/p1" "/Common/parent" "" "" "" "" "enabled" "" "default" "" "" (-7) _
        sampleSourceProfile sampleSourceProfile () () () ()
        rfl rfl rfl rfl rfl rfl rfl rfl rfl rfl rfl rfl rfl rfl rfl rfl rfl).2.2.2.1⟩⟩

/-! ## Read -/

/-- C5: on a device that returns the sample profile (`Timeout` is `"180"`) and
a store whose `timeout` attribute holds the integer `-7`, `Read` of both
resources returns nil and hands the string `"180"` to `d.Set("timeout", …)`;
the field is a `TypeInt` field, the store does not take the string, and after
`Read` the `timeout` attribute still holds `-7`, not `pp.Timeout`; a string
field such as `mask` is copied. -/
theorem read_does_not_store_timeout :
    ((healthyDevice.GetDestAddrPersistenceProfile "/Common/id1" ()).1 =
        (some sampleDestProfile, none) ∧
      sampleDestProfile.Timeout = "180" ∧
      schemaType resourceBigipLtmPersistenceProfileDstAddr "timeout" = some ValueType.TypeInt ∧
      (resourceBigipLtmPersistenceProfileDstAddrRead healthyDevice (sampleWorld ())).1 =
        Except.ok none ∧
      ("timeout", Value.str "180") ∈
        (resourceBigipLtmPersistenceProfileDstAddrRead healthyDevice (sampleWorld ())).2.sets ∧
      (resourceBigipLtmPersistenceProfileDstAddrRead healthyDevice (sampleWorld ())).2.d.Get "timeout" =
        Value.int (-7) ∧
      (resourceBigipLtmPersistenceProfileDstAddrRead healthyDevice (sampleWorld ())).2.d.Get "timeout" ≠
        Value.str sampleDestProfile.Timeout ∧
      (resourceBigipLtmPersistenceProfileDstAddrRead healthyDevice (sampleWorld ())).2.d.Get "mask" =
        Value.str "255.255.255.255") ∧
    ((healthyDevice.GetSourceAddrPersistenceProfile "/Common/id1" ()).1 =
        (some sampleSourceProfile, none) ∧
      sampleSourceProfile.Timeout = "180" ∧
      schemaType resourceBigipLtmPersistenceProfileSrcAddr "timeout" = some ValueType.TypeInt ∧
      (resourceBigipLtmPersistenceProfileSrcAddrRead healthyDevice (sampleWorld ())).1 =
        Except.ok none ∧
      ("timeout", Value.str "180") ∈
        (resourceBigipLtmPersistenceProfileSrcAddrRead healthyDevice (sampleWorld ())).2.sets ∧
      (resourceBigipLtmPersistenceProfileSrcAddrRead healthyDevice (sampleWorld ())).2.d.Get "timeout" =
        Value.int (-7) ∧
      (resourceBigipLtmPersistenceProfileSrcAddrRead healthyDevice (sampleWorld ())).2.d.Get "timeout" ≠
        Value.str sampleSourceProfile.Timeout ∧
      (resourceBigipLtmPersistenceProfileSrcAddrRead healthyDevice (sampleWorld ())).2.d.Get "mask" =
        Value.str "255.255.255.255") := by
  refine ⟨?_, ?_⟩
  · have ht : (resourceBigipLtmPersistenceProfileDstAddrRead healthyDevice
        (sampleWorld ())).2.d.Get "timeout" = Value.int (-7) := rfl
    refine ⟨rfl, rfl, rfl, rfl, ?_, ht, ?_, rfl⟩
    · rw [dstRead_ok healthyDevice (sampleWorld ()) sampleDestProfile () rfl]
      simp [sampleWorld, sampleDestProfile]
    · rw [ht]
      decide
  · have ht : (resourceBigipLtmPersistenceProfileSrcAddrRead healthyDevice
        (sampleWorld ())).2.d.Get "timeout" = Value.int (-7) := rfl
    refine ⟨rfl, rfl, rfl, rfl, ?_, ht, ?_, rfl⟩
    · rw [srcRead_ok healthyDevice (sampleWorld ()) sampleSourceProfile () rfl]
      simp [sampleWorld, sampleSourceProfile]
    · rw [ht]
      decide

/-! ## Update -/

/-- C6: for both resources, when `Modify…PersistenceProfile(ID, pp)` succeeds
and the following `Get…PersistenceProfile(ID)` returns exactly `pp`, the
profile `Update` sends is addressed by the resource ID, every field of it is
the corresponding attribute and its `Timeout` is `Itoa` of the integer
`timeout` attribute; after `Update` every string attribute other than `name`
has the value it had before; the value handed back to `d.Set` for `timeout` is
the decimal string `Itoa n`, which reads back as the configured integer `n`,
for every integer `n`; the store keeps `n` under `timeout`. -/
theorem update_round_trip (client : BigIP σ) (w : World σ) :
    (∀ (a df mp ms mv mi oc ha mk : String) (n : Int)
        (pp : DestAddrPersistenceProfile) (s1 s2 : σ),
      w.d.Get "app_service" = Value.str a →
      w.d.Get "defaults_from" = Value.str df →
      w.d.Get "match_across_pools" = Value.str mp →
      w.d.Get "match_across_services" = Value.str ms →
      w.d.Get "match_across_virtuals" = Value.str mv →
      w.d.Get "mirror" = Value.str mi →
      w.d.Get "override_conn_limit" = Value.str oc →
      w.d.Get "timeout" = Value.int n →
      w.d.Get "hash_algorithm" = Value.str ha →
      w.d.Get "mask" = Value.str mk →
      pp =
        { AppService := a, DefaultsFrom := df, MatchAcrossPools := mp,
          MatchAcrossServices := ms, MatchAcrossVirtuals := mv, Mirror := mi,
          OverrideConnectionLimit := oc, Timeout := Itoa n, HashAlgorithm := ha,
          Mask := mk } →
      client.ModifyDestAddrPersistenceProfile w.d.Id pp w.dev = (none, s1) →
      client.GetDestAddrPersistenceProfile w.d.Id s1 = ((some pp, none), s2) →
      (resourceBigipLtmPersistenceProfileDstAddrUpdate client w).1 = Except.ok none ∧
      (resourceBigipLtmPersistenceProfileDstAddrUpdate client w).2.calls =
        w.calls ++ [Call.ModifyDestAddrPersistenceProfile w.d.Id pp,
          Call.GetDestAddrPersistenceProfile w.d.Id] ∧
      (resourceBigipLtmPersistenceProfileDstAddrUpdate client w).2.sets =
        w.sets ++
          [("name", Value.str w.d.Id),
            ("app_service", Value.str a),
            ("defaults_from", Value.str df),
            ("match_across_pools", Value.str mp),
            ("match_across_services", Value.str ms),
            ("match_across_virtuals", Value.str mv),
            ("mirror", Value.str mi),
            ("timeout", Value.str (Itoa n)),
            ("override_conn_limit", Value.str oc),
            ("hash_algorithm", Value.str ha),
            ("mask", Value.str mk)] ∧
      (∀ k ∈ ["app_service", "defaults_from", "match_across_pools", "match_across_services",
          "match_across_virtuals", "mirror", "override_conn_limit", "hash_algorithm",
          "mask"],
        (resourceBigipLtmPersistenceProfileDstAddrUpdate client w).2.d.Get k = w.d.Get k) ∧
      (resourceBigipLtmPersistenceProfileDstAddrUpdate client w).2.d.Get "timeout" =
        Value.int n ∧
      (resourceBigipLtmPersistenceProfileDstAddrUpdate client w).2.d.Id = w.d.Id ∧
      parseDecimal (Itoa n) = some n) ∧
    (∀ (a df mp ms mv mi oc ha mx mk : String) (n : Int)
        (pp : SourceAddrPersistenceProfile) (s1 s2 : σ),
      w.d.Get "app_service" = Value.str a →
      w.d.Get "defaults_from" = Value.str df →
      w.d.Get "match_across_pools" = Value.str mp →
      w.d.Get "match_across_services" = Value.str ms →
      w.d.Get "match_across_virtuals" = Value.str mv →
      w.d.Get "mirror" = Value.str mi →
      w.d.Get "override_conn_limit" = Value.str oc →
      w.d.Get "timeout" = Value.int n →
      w.d.Get "hash_algorithm" = Value.str ha →
      w.d.Get "map_proxies" = Value.str mx →
      w.d.Get "mask" = Value.str mk →
      pp =
        { AppService := a, DefaultsFrom := df, MatchAcrossPools := mp,
          MatchAcrossServices := ms, MatchAcrossVirtuals := mv, Mirror := mi,
          OverrideConnectionLimit := oc, Timeout := Itoa n, HashAlgorithm := ha,
          MapProxies := mx, Mask := mk } →
      client.ModifySourceAddrPersistenceProfile w.d.Id pp w.dev = (none, s1) →
      client.GetSourceAddrPersistenceProfile w.d.Id s1 = ((some pp, none), s2) →
      (resourceBigipLtmPersistenceProfileSrcAddrUpdate client w).1 = Except.ok none ∧
      (resourceBigipLtmPersistenceProfileSrcAddrUpdate client w).2.calls =
        w.calls ++ [Call.ModifySourceAddrPersistenceProfile w.d.Id pp,
          Call.GetSourceAddrPersistenceProfile w.d.Id] ∧
      (resourceBigipLtmPersistenceProfileSrcAddrUpdate client w).2.sets =
        w.sets ++
          [("name", Value.str w.d.Id),
            ("app_service", Value.str a),
            ("defaults_from", Value.str df),
            ("match_across_pools", Value.str mp),
            ("match_across_services", Value.str ms),
            ("match_across_virtuals", Value.str mv),
            ("mirror", Value.str mi),
            ("timeout", Value.str (Itoa n)),
            ("override_conn_limit", Value.str oc),
            ("hash_algorithm", Value.str ha),
            ("map_proxies", Value.str mx),
            ("mask", Value.str mk)] ∧
      (∀ k ∈ ["app_service", "defaults_from", "match_across_pools", "match_across_services",
          "match_across_virtuals", "mirror", "override_conn_limit", "hash_algorithm",
          "mask", "map_proxies"],
        (resourceBigipLtmPersistenceProfileSrcAddrUpdate client w).2.d.Get k = w.d.Get k) ∧
      (resourceBigipLtmPersistenceProfileSrcAddrUpdate client w).2.d.Get "timeout" =
        Value.int n ∧
      (resourceBigipLtmPersistenceProfileSrcAddrUpdate client w).2.d.Id = w.d.Id ∧
      parseDecimal (Itoa n) = some n) := by
  refine ⟨?_, ?_⟩
  · intro a df mp ms mv mi oc ha mk n pp s1 s2 ha1 hdf hmp hms hmv hmi hoc hn hha hmk hpp
      hm hg
    have hb : (buildDestAddrPersistenceProfile w).1 = Except.ok pp := by
      rw [hpp]
      unfold buildDestAddrPersistenceProfile
      simp only [Op.getString_run, Op.getInt_run, Op.pure_run, ha1, hdf, hmp, hms, hmv, hmi,
        hoc, hn, hha, hmk]
    have hU : resourceBigipLtmPersistenceProfileDstAddrUpdate client w =
        resourceBigipLtmPersistenceProfileDstAddrRead client
          { w with
            dev := s1
            calls := w.calls ++ [Call.ModifyDestAddrPersistenceProfile w.d.Id pp] } := by
      rw [dstUpdate_run client w pp hb, hm]
    rw [hU, dstRead_ok client _ pp s2 hg]
    subst hpp
    simp only [ResourceData.Get] at ha1 hdf hmp hms hmv hmi hoc hn hha hmk
    refine ⟨rfl, by simp [ResourceData.Id], rfl, ?_, ?_, rfl, parseDecimal_Itoa n⟩
    · intro k hk
      simp only [List.mem_cons, List.mem_singleton, List.not_mem_nil, or_false] at hk
      rcases hk with rfl | rfl | rfl | rfl | rfl | rfl | rfl | rfl | rfl <;>
        simp [ResourceData.Get, *]
    · simp [ResourceData.Get, hn]
  · intro a df mp ms mv mi oc ha mx mk n pp s1 s2 ha1 hdf hmp hms hmv hmi hoc hn hha hmx hmk hpp
      hm hg
    have hb : (buildSourceAddrPersistenceProfile w).1 = Except.ok pp := by
      rw [hpp]
      unfold buildSourceAddrPersistenceProfile
      simp only [Op.getString_run, Op.getInt_run, Op.pure_run, ha1, hdf, hmp, hms, hmv, hmi,
        hoc, hn, hha, hmx, hmk]
    have hU : resourceBigipLtmPersistenceProfileSrcAddrUpdate client w =
        resourceBigipLtmPersistenceProfileSrcAddrRead client
          { w with
            dev := s1
            calls := w.calls ++ [Call.ModifySourceAddrPersistenceProfile w.d.Id pp] } := by
      rw [srcUpdate_run client w pp hb, hm]
    rw [hU, srcRead_ok client _ pp s2 hg]
    subst hpp
    simp only [ResourceData.Get] at ha1 hdf hmp hms hmv hmi hoc hn hha hmx hmk
    refine ⟨rfl, by simp [ResourceData.Id], rfl, ?_, ?_, rfl, parseDecimal_Itoa n⟩
    · intro k hk
      simp only [List.mem_cons, List.mem_singleton, List.not_mem_nil, or_false] at hk
      rcases hk with rfl | rfl | rfl | rfl | rfl | rfl | rfl | rfl | rfl | rfl <;>
        simp [ResourceData.Get, *]
    · simp [ResourceData.Get, hn]

/-- Witness of C6 on the device that returns what was last sent, with a
negative timeout and an ID that differs from the `name` attribute. -/
theorem update_round_trip_witness :
    ((resourceBigipLtmPersistenceProfileDstAddrUpdate echoDevice (sampleWorld (none, none))).1 =
        Except.ok none ∧
      (resourceBigipLtmPersistenceProfileDstAddrUpdate echoDevice (sampleWorld (none, none))).2.calls =
        [Call.ModifyDestAddrPersistenceProfile "/Common/id1"
            { AppService := "", DefaultsFrom := "/Common/parent", MatchAcrossPools := "",
              MatchAcrossServices := "", MatchAcrossVirtuals := "", Mirror := "enabled",
              OverrideConnectionLimit := "", Timeout := Itoa (-7), HashAlgorithm := "default",
              Mask := "" },
          Call.GetDestAddrPersistenceProfile "/Common/id1"] ∧
      (resourceBigipLtmPersistenceProfileDstAddrUpdate echoDevice (sampleWorld (none, none))).2.d.Get "timeout" =
        Value.int (-7) ∧
      parseDecimal (Itoa (-7)) = some (-7)) ∧
    ((resourceBigipLtmPersistenceProfileSrcAddrUpdate echoDevice (sampleWorld (none, none))).1 =
        Except.ok none ∧
      (resourceBigipLtmPersistenceProfileSrcAddrUpdate echoDevice (sampleWorld (none, none))).2.calls =
        [Call.ModifySourceAddrPersistenceProfile "/Common/id1"
            { AppService := "", DefaultsFrom := "/Common/parent", MatchAcrossPools := "",
              MatchAcrossServices := "", MatchAcrossVirtuals := "", Mirror := "enabled",
              OverrideConnectionLimit := "", Timeout := Itoa (-7), HashAlgorithm := "default",
              MapProxies := "", Mask := "" },
          Call.GetSourceAddrPersistenceProfile "/Common/id1"] ∧
      (resourceBigipLtmPersistenceProfileSrcAddrUpdate echoDevice (sampleWorld (none, none))).2.d.Get "timeout" =
        Value.int (-7) ∧
      parseDecimal (Itoa (-7)) = some (-7)) := by
  have h := update_round_trip echoDevice (sampleWorld (none, none))
  exact
    ⟨⟨(h.1 "" "/Common/parent" "" "" "" "enabled" "" "default" "" (-7) _ _ _
        rfl rfl rfl rfl rfl rfl rfl rfl rfl rfl rfl rfl rfl).1,
      (h.1 "" "/Common/parent" "" "" "" "enabled" "" "default" "" (-7) _ _ _
        rfl rfl rfl rfl rfl rfl rfl rfl rfl rfl rfl rfl rfl).2.1,
      (h.1 "" "/Common/parent" "" "" "" "enabled" "" "default" "" (-7) _ _ _
        rfl rfl rfl rfl rfl rfl rfl rfl rfl rfl rfl rfl rfl).2.2.2.2.1,
      (h.1 "" "/Common/parent" "" "" "" "enabled" "" "default" "" (-7) _ _ _
        rfl rfl rfl rfl rfl rfl rfl rfl rfl rfl rfl rfl rfl).2.2.2.2.2.2⟩,
     ⟨(h.2 "" "/Common/parent" "" "" "" "enabled" "" "default" "" "" (-7) _ _ _
        rfl rfl rfl rfl rfl rfl rfl rfl rfl rfl rfl rfl rfl rfl).1,
      (h.2 "" "/Common/parent" "" "" "" "enabled" "" "default" "" "" (-7) _ _ _
        rfl rfl rfl rfl rfl rfl rfl rfl rfl rfl rfl rfl rfl rfl).2.1,
      (h.2 "" "/Common/parent" "" "" "" "enabled" "" "default" "" "" (-7) _ _ _
        rfl rfl rfl rfl rfl rfl rfl rfl rfl rfl rfl rfl rfl rfl).2.2.2.2.1,
      (h.2 "" "/Common/parent" "" "" "" "enabled" "" "default" "" "" (-7) _ _ _
        rfl rfl rfl rfl rfl rfl rfl rfl rfl rfl rfl rfl rfl rfl).2.2.2.2.2.2⟩⟩

/-- C7: for both resources, `Exists` makes exactly one client call,
`Get…PersistenceProfile(ID)`, and writes no attribute; when the call returns no
error it returns `(true, nil)` and keeps the ID if the profile is non-nil, and
returns `(false, nil)` and sets the ID to the empty string if the profile is
nil; when the call returns an error the ID is kept. -/
theorem exists_probe (client : BigIP σ) (w : World σ) :
    ((resourceBigipLtmPersistenceProfileDstAddrExists client w).2.calls =
        w.calls ++ [Call.GetDestAddrPersistenceProfile w.d.Id] ∧
      (resourceBigipLtmPersistenceProfileDstAddrExists client w).2.d.attrs = w.d.attrs ∧
      (∀ (pp : DestAddrPersistenceProfile) (s : σ),
        client.GetDestAddrPersistenceProfile w.d.Id w.dev = ((some pp, none), s) →
        (resourceBigipLtmPersistenceProfileDstAddrExists client w).1 = Except.ok (true, none) ∧
        (resourceBigipLtmPersistenceProfileDstAddrExists client w).2.d.Id = w.d.Id) ∧
      (∀ s : σ,
        client.GetDestAddrPersistenceProfile w.d.Id w.dev = ((none, none), s) →
        (resourceBigipLtmPersistenceProfileDstAddrExists client w).1 = Except.ok (false, none) ∧
        (resourceBigipLtmPersistenceProfileDstAddrExists client w).2.d.Id = "") ∧
      (∀ (pp : Option DestAddrPersistenceProfile) (e : GoError) (s : σ),
        client.GetDestAddrPersistenceProfile w.d.Id w.dev = ((pp, some e), s) →
        (resourceBigipLtmPersistenceProfileDstAddrExists client w).2.d.Id = w.d.Id)) ∧
    ((resourceBigipLtmPersistenceProfileSrcAddrExists client w).2.calls =
        w.calls ++ [Call.GetSourceAddrPersistenceProfile w.d.Id] ∧
      (resourceBigipLtmPersistenceProfileSrcAddrExists client w).2.d.attrs = w.d.attrs ∧
      (∀ (pp : SourceAddrPersistenceProfile) (s : σ),
        client.GetSourceAddrPersistenceProfile w.d.Id w.dev = ((some pp, none), s) →
        (resourceBigipLtmPersistenceProfileSrcAddrExists client w).1 = Except.ok (true, none) ∧
        (resourceBigipLtmPersistenceProfileSrcAddrExists client w).2.d.Id = w.d.Id) ∧
      (∀ s : σ,
        client.GetSourceAddrPersistenceProfile w.d.Id w.dev = ((none, none), s) →
        (resourceBigipLtmPersistenceProfileSrcAddrExists client w).1 = Except.ok (false, none) ∧
        (resourceBigipLtmPersistenceProfileSrcAddrExists client w).2.d.Id = "") ∧
      (∀ (pp : Option SourceAddrPersistenceProfile) (e : GoError) (s : σ),
        client.GetSourceAddrPersistenceProfile w.d.Id w.dev = ((pp, some e), s) →
        (resourceBigipLtmPersistenceProfileSrcAddrExists client w).2.d.Id = w.d.Id)) := by
  refine ⟨?_, ?_⟩
  · refine ⟨?_, ?_, ?_, ?_, ?_⟩
    · rcases hg : client.GetDestAddrPersistenceProfile w.d.Id w.dev with ⟨⟨pp, err⟩, s⟩
      rw [dstExists_run client w pp err s hg]
      cases err <;> cases pp <;> rfl
    · rcases hg : client.GetDestAddrPersistenceProfile w.d.Id w.dev with ⟨⟨pp, err⟩, s⟩
      rw [dstExists_run client w pp err s hg]
      cases err <;> cases pp <;> rfl
    · intro pp s h
      rw [dstExists_run client w (some pp) none s h]
      exact ⟨rfl, rfl⟩
    · intro s h
      rw [dstExists_run client w none none s h]
      exact ⟨rfl, rfl⟩
    · intro pp e s h
      rw [dstExists_run client w pp (some e) s h]
  · refine ⟨?_, ?_, ?_, ?_, ?_⟩
    · rcases hg : client.GetSourceAddrPersistenceProfile w.d.Id w.dev with ⟨⟨pp, err⟩, s⟩
      rw [srcExists_run client w pp err s hg]
      cases err <;> cases pp <;> rfl
    · rcases hg : client.GetSourceAddrPersistenceProfile w.d.Id w.dev with ⟨⟨pp, err⟩, s⟩
      rw [srcExists_run client w pp err s hg]
      cases err <;> cases pp <;> rfl
    · intro pp s h
      rw [srcExists_run client w (some pp) none s h]
      exact ⟨rfl, rfl⟩
    · intro s h
      rw [srcExists_run client w none none s h]
      exact ⟨rfl, rfl⟩
    · intro pp e s h
      rw [srcExists_run client w pp (some e) s h]

/-- Witness of C7 on a device that has the profile and on one that has not. -/
theorem exists_probe_witness :
    ((resourceBigipLtmPersistenceProfileDstAddrExists healthyDevice (sampleWorld ())).1 =
        Except.ok (true, none) ∧
      (resourceBigipLtmPersistenceProfileDstAddrExists healthyDevice (sampleWorld ())).2.d.Id =
        "/Common/id1" ∧
      (resourceBigipLtmPersistenceProfileDstAddrExists missingDevice (sampleWorld ())).1 =
        Except.ok (false, none) ∧
      (resourceBigipLtmPersistenceProfileDstAddrExists missingDevice (sampleWorld ())).2.d.Id = "") ∧
    ((resourceBigipLtmPersistenceProfileSrcAddrExists healthyDevice (sampleWorld ())).1 =
        Except.ok (true, none) ∧
      (resourceBigipLtmPersistenceProfileSrcAddrExists healthyDevice (sampleWorld ())).2.d.Id =
        "/Common/id1" ∧
      (resourceBigipLtmPersistenceProfileSrcAddrExists missingDevice (sampleWorld ())).1 =
        Except.ok (false, none) ∧
      (resourceBigipLtmPersistenceProfileSrcAddrExists missingDevice (sampleWorld ())).2.d.Id = "") := by
  have h := exists_probe healthyDevice (sampleWorld ())
  have m := exists_probe missingDevice (sampleWorld ())
  exact
    ⟨⟨(h.1.2.2.1 sampleDestProfile () rfl).1, (h.1.2.2.1 sampleDestProfile () rfl).2,
      (m.1.2.2.2.1 () rfl).1, (m.1.2.2.2.1 () rfl).2⟩,
     ⟨(h.2.2.2.1 sampleSourceProfile () rfl).1, (h.2.2.2.1 sampleSourceProfile () rfl).2,
      (m.2.2.2.2.1 () rfl).1, (m.2.2.2.2.1 () rfl).2⟩⟩

/-! ## The create error, the missing profile -/

/-- C2: on a device whose create call fails (and whose other calls succeed),
`Create` of both resources goes on to modify and read the profile and returns
nil: the error of the create call is not returned. -/
theorem create_drops_create_error :
    ((createFailsDevice.CreateDestAddrPersistenceProfile "/Common/p1" "/Common/parent" ()).1 =
        some ⟨"create failed"⟩ ∧
      (resourceBigipLtmPersistenceProfileDstAddrCreate createFailsDevice (sampleWorld ())).1 =
        Except.ok none ∧
      (resourceBigipLtmPersistenceProfileDstAddrCreate createFailsDevice (sampleWorld ())).2.calls =
        [Call.CreateDestAddrPersistenceProfile "/Common/p1" "/Common/parent",
          Call.ModifyDestAddrPersistenceProfile "/Common/p1"
            { AppService := "", DefaultsFrom := "/Common/parent", MatchAcrossPools := "",
              MatchAcrossServices := "", MatchAcrossVirtuals := "", Mirror := "enabled",
              OverrideConnectionLimit := "", Timeout := "-7", HashAlgorithm := "default",
              Mask := "" },
          Call.GetDestAddrPersistenceProfile "/Common/p1",
          Call.GetDestAddrPersistenceProfile "/Common/p1"]) ∧
    ((createFailsDevice.CreateSourceAddrPersistenceProfile "/Common/p1" "/Common/parent" ()).1 =
        some ⟨"create failed"⟩ ∧
      (resourceBigipLtmPersistenceProfileSrcAddrCreate createFailsDevice (sampleWorld ())).1 =
        Except.ok none ∧
      (resourceBigipLtmPersistenceProfileSrcAddrCreate createFailsDevice (sampleWorld ())).2.calls =
        [Call.CreateSourceAddrPersistenceProfile "/Common/p1" "/Common/parent",
          Call.ModifySourceAddrPersistenceProfile "/Common/p1"
            { AppService := "", DefaultsFrom := "/Common/parent", MatchAcrossPools := "",
              MatchAcrossServices := "", MatchAcrossVirtuals := "", Mirror := "enabled",
              OverrideConnectionLimit := "", Timeout := "-7", HashAlgorithm := "default",
              MapProxies := "", Mask := "" },
          Call.GetSourceAddrPersistenceProfile "/Common/p1",
          Call.GetSourceAddrPersistenceProfile "/Common/p1"]) := by
  refine ⟨⟨rfl, rfl, rfl⟩, ⟨rfl, rfl, rfl⟩⟩

/-- C9: on a device that answers get with a nil profile and a nil error, which
`Exists` reports as `(false, nil)`, `Read` of both resources panics with a nil
dereference, and so do `Update` and `Create`. -/
theorem read_panics_on_nil_profile :
    ((missingDevice.GetDestAddrPersistenceProfile "/Common/id1" ()).1 = (none, none) ∧
      (resourceBigipLtmPersistenceProfileDstAddrExists missingDevice (sampleWorld ())).1 =
        Except.ok (false, none) ∧
      (resourceBigipLtmPersistenceProfileDstAddrRead missingDevice (sampleWorld ())).1 =
        Except.error Panic.nilDereference ∧
      (resourceBigipLtmPersistenceProfileDstAddrUpdate missingDevice (sampleWorld ())).1 =
        Except.error Panic.nilDereference ∧
      (resourceBigipLtmPersistenceProfileDstAddrCreate missingDevice (sampleWorld ())).1 =
        Except.error Panic.nilDereference) ∧
    ((missingDevice.GetSourceAddrPersistenceProfile "/Common/id1" ()).1 = (none, none) ∧
      (resourceBigipLtmPersistenceProfileSrcAddrExists missingDevice (sampleWorld ())).1 =
        Except.ok (false, none) ∧
      (resourceBigipLtmPersistenceProfileSrcAddrRead missingDevice (sampleWorld ())).1 =
        Except.error Panic.nilDereference ∧
      (resourceBigipLtmPersistenceProfileSrcAddrUpdate missingDevice (sampleWorld ())).1 =
        Except.error Panic.nilDereference ∧
      (resourceBigipLtmPersistenceProfileSrcAddrCreate missingDevice (sampleWorld ())).1 =
        Except.error Panic.nilDereference) := by
  refine ⟨⟨rfl, rfl, rfl, rfl, rfl⟩, ⟨rfl, rfl, rfl, rfl, rfl⟩⟩

/-! ## The schemas -/

/-- C8: the destination-address schema has exactly the eleven listed fields;
the source-address schema has those eleven, each equal to the
destination-address one (type, required and optional flags, default, validator,
description), and `map_proxies`; in both, `name` and `defaults_from` are the
only required fields, `timeout` is the only integer field and every other
field is a string. -/
theorem schema_data_model :
    schemaKeys resourceBigipLtmPersistenceProfileDstAddr =
      ["name", "app_service", "defaults_from", "match_across_pools", "match_across_services",
        "match_across_virtuals", "mirror", "timeout", "override_conn_limit", "hash_algorithm",
        "mask"] ∧
    schemaKeys resourceBigipLtmPersistenceProfileSrcAddr =
      ["name", "app_service", "defaults_from", "match_across_pools", "match_across_services",
        "match_across_virtuals", "mirror", "timeout", "override_conn_limit", "hash_algorithm",
        "map_proxies", "mask"] ∧
    resourceBigipLtmPersistenceProfileSrcAddr.filter (fun kv => kv.1 != "map_proxies") =
      resourceBigipLtmPersistenceProfileDstAddr ∧
    schemaKeysWhere resourceBigipLtmPersistenceProfileDstAddr (fun s => s.Required) =
      ["name", "defaults_from"] ∧
    schemaKeysWhere resourceBigipLtmPersistenceProfileSrcAddr (fun s => s.Required) =
      ["name", "defaults_from"] ∧
    schemaKeysWhere resourceBigipLtmPersistenceProfileDstAddr
      (fun s => s.Ty == ValueType.TypeInt) = ["timeout"] ∧
    schemaKeysWhere resourceBigipLtmPersistenceProfileSrcAddr
      (fun s => s.Ty == ValueType.TypeInt) = ["timeout"] ∧
    schemaKeysWhere resourceBigipLtmPersistenceProfileDstAddr
      (fun s => s.Ty == ValueType.TypeString) =
      ["name", "app_service", "defaults_from", "match_across_pools", "match_across_services",
        "match_across_virtuals", "mirror", "override_conn_limit", "hash_algorithm", "mask"] ∧
    schemaKeysWhere resourceBigipLtmPersistenceProfileSrcAddr
      (fun s => s.Ty == ValueType.TypeString) =
      ["name", "app_service", "defaults_from", "match_across_pools", "match_across_services",
        "match_across_virtuals", "mirror", "override_conn_limit", "hash_algorithm",
        "map_proxies", "mask"] ∧
    (schemaKeys resourceBigipLtmPersistenceProfileDstAddr).Nodup ∧
    (schemaKeys resourceBigipLtmPersistenceProfileSrcAddr).Nodup := by
  refine ⟨rfl, rfl, rfl, rfl, rfl, rfl, rfl, rfl, rfl, by decide, by decide⟩

/-- C10: in both schemas the field `override_conn_limit`, a string field
validated by `validateEnabledDisabled`, declares the boolean `false` as its
default, and in the source-address schema `map_proxies` declares the boolean
`true`: the declared defaults are not all valid values. -/
theorem declared_defaults_not_valid :
    (resourceBigipLtmPersistenceProfileDstAddr.lookup "override_conn_limit").map
        (fun s => (s.Ty, s.Default, s.ValidateFunc)) =
      some (ValueType.TypeString, some (Value.bool false),
        some SchemaValidateFunc.validateEnabledDisabled) ∧
    (resourceBigipLtmPersistenceProfileSrcAddr.lookup "override_conn_limit").map
        (fun s => (s.Ty, s.Default, s.ValidateFunc)) =
      some (ValueType.TypeString, some (Value.bool false),
        some SchemaValidateFunc.validateEnabledDisabled) ∧
    (resourceBigipLtmPersistenceProfileSrcAddr.lookup "map_proxies").map
        (fun s => (s.Ty, s.Default, s.ValidateFunc)) =
      some (ValueType.TypeString, some (Value.bool true),
        some SchemaValidateFunc.validateEnabledDisabled) ∧
    ¬ DefaultsValid resourceBigipLtmPersistenceProfileDstAddr ∧
    ¬ DefaultsValid resourceBigipLtmPersistenceProfileSrcAddr := by
  refine ⟨rfl, rfl, rfl, ?_, ?_⟩
  · intro h
    have h1 := (h
      ("override_conn_limit", {
        Ty := ValueType.TypeString,
        Default := some (Value.bool false),
        Optional := true,
        Description := "To enable _ disable that pool member connection limits are overridden for persisted clients. Per-virtual connection limits remain hard limits and are not overridden.",
        ValidateFunc := some SchemaValidateFunc.validateEnabledDisabled })
      (by simp [resourceBigipLtmPersistenceProfileDstAddr]) (Value.bool false) rfl).1
    exact absurd h1 (by decide)
  · intro h
    have h1 := (h
      ("override_conn_limit", {
        Ty := ValueType.TypeString,
        Default := some (Value.bool false),
        Optional := true,
        Description := "To enable _ disable that pool member connection limits are overridden for persisted clients. Per-virtual connection limits remain hard limits and are not overridden.",
        ValidateFunc := some SchemaValidateFunc.validateEnabledDisabled })
      (by simp [resourceBigipLtmPersistenceProfileSrcAddr]) (Value.bool false) rfl).1
    exact absurd h1 (by decide)
end Bigip
